import Mathlib

/-!
# Verification of the codevoyage backend

A shallow embedding, in Lean 4, of the parts of the codevoyage repository
(`backend/app`) that the specification's testable properties talk about:

* Python numeric semantics used by the code (`round` with banker's rounding,
  `int()` truncation, `max`/`min` clamps) are modelled over `ℚ`;
* transcendental library functions (`math.log`, `math.log2`, `math.sqrt`) and
  Python's string rendering of floats are abstracted as parameters (bundled in
  `MathOps`), since their IEEE-754 behaviour has no exact rational form; no
  property proved below depends on their values;
* external-world behaviour (the git object store, the filesystem walk, the
  Redis server, the wall clock) is modelled as explicit input data or state.

Sources embedded: `app/core/circuit_breaker.py`, `app/core/cache.py`,
`app/services/git_service.py`, `app/services/complexity_service.py`,
`app/services/insight_service.py`, with configuration defaults from
`app/core/config.py`.
-/

namespace CodeVoyage

/-! ## Python numeric semantics -/

/-- Python `round(x)` to an integer: round half to even (banker's rounding).
Python rounds the binary float; we model the idealized decimal behaviour. -/
def pyRoundInt (x : ℚ) : ℤ :=
  let f : ℤ := ⌊x⌋
  let r : ℚ := x - f
  if r < 1/2 then f
  else if 1/2 < r then f + 1
  else if f % 2 = 0 then f else f + 1

/-- Python `round(x, nd)` for `nd` decimal digits. -/
def pyRound (x : ℚ) (nd : ℕ) : ℚ :=
  (pyRoundInt (x * (10 : ℚ) ^ nd) : ℚ) / (10 : ℚ) ^ nd

/-- Python `int()` applied to a float/rational: truncation toward zero. -/
def pyInt (x : ℚ) : ℤ := if 0 ≤ x then ⌊x⌋ else -⌊-x⌋

/-- `_clamp` from `insight_service.py`: `max(minimum, min(maximum, value))`. -/
def clampQ (value minimum maximum : ℚ) : ℚ := max minimum (min maximum value)

/-- Python `a or b` on strings: the empty string is falsy. -/
def pyOrStr (a b : String) : String := if a = "" then b else a

/-- Python `a or b` on optional strings (`None` and `""` are falsy). -/
def pyOrOptStr (a b : Option String) : Option String :=
  match a with
  | some s => if s = "" then b else some s
  | none => b

/-- Python `str(x)` on an optional string (`str(None) = "None"`). -/
def pyStrOpt (a : Option String) : String :=
  match a with
  | some s => s
  | none => "None"

/-- `f"{h:02d}"`: zero-pad a natural number to two digits. -/
def pad2 (n : ℕ) : String := if n < 10 then "0" ++ toString n else toString n

/-- Python `x or y` on numbers (`0` is falsy).  The first argument is the
primary value, the second is unused here beyond mirroring a dead `.get`
fallback, the third is the final `or` default. -/
def pyOrQ (x _fallback d : ℚ) : ℚ := if x = 0 then d else x

/-- Characters of `needle` are a prefix of `hay` (Python `str.startswith`). -/
def charsStart : List Char → List Char → Bool
  | [], _ => true
  | _ :: _, [] => false
  | a :: as, b :: bs => a = b && charsStart as bs

/-- Characters of `needle` occur contiguously in `hay` (Python `in`). -/
def charsInfix (needle : List Char) : List Char → Bool
  | [] => charsStart needle []
  | b :: bs => charsStart needle (b :: bs) || charsInfix needle bs

/-- Python `needle in hay` on strings. -/
def strIn (needle hay : String) : Bool := charsInfix needle.data hay.data

/-- Python `hay.startswith(needle)`. -/
def strStarts (hay needle : String) : Bool := charsStart needle.data hay.data

/-- Python `hay.endswith(needle)`. -/
def strEnds (hay needle : String) : Bool :=
  charsStart needle.data.reverse hay.data.reverse

/-- Python `s[:n]` (also for lists via `List.take`). -/
def strTake (s : String) (n : ℕ) : String := ⟨s.data.take n⟩

/-- Transcendental functions from Python's `math` module and the float
renderer used by f-string interpolation, abstracted as parameters: their
IEEE-754 results have no exact rational counterpart.  Every theorem below
holds for an arbitrary interpretation. -/
structure MathOps where
  log : ℚ → ℚ
  log2 : ℚ → ℚ
  sqrt : ℚ → ℚ
  fmt : ℚ → String

/-- Last `n` elements of a list (Python `l[-n:]`). -/
def takeLast (l : List α) (n : ℕ) : List α := l.drop (l.length - n)

/-- Python `l[::step]` for `step ≥ 1`: every `step`-th element from index 0. -/
def everyNth (l : List α) (step : ℕ) : List α :=
  (l.enum.filter (fun p => p.1 % step = 0)).map (·.2)

/-- Insert `x` into an already-sorted list, before the first element `y` with
`le x y` (helper of `stableSort`). -/
def insertSorted (le : α → α → Bool) (x : α) : List α → List α
  | [] => [x]
  | y :: ys => if le x y then x :: y :: ys else y :: insertSorted le x ys

/-- A stable sort (insertion sort over `foldr`), modelling Python's stable
`sorted`: elements whose keys compare equal keep their original order. -/
def stableSort (le : α → α → Bool) (l : List α) : List α :=
  l.foldr (insertSorted le) []

/-- Stable sort putting larger keys first (Python
`sorted(l, key=k, reverse=True)`). -/
def sortByKeyDesc (key : α → ℚ) (l : List α) : List α :=
  stableSort (fun a b => key b ≤ key a) l

/-- Stable sort putting smaller keys first (Python `sorted(l, key=k)`). -/
def sortByKeyAsc (key : α → ℚ) (l : List α) : List α :=
  stableSort (fun a b => key a ≤ key b) l

/-- String comparison as Python compares `str` (by code point). -/
def strLe (a b : String) : Bool := a < b || a = b

/-- Sort strings ascending (Python `sorted(keys)` over string keys). -/
def sortStrings (l : List String) : List String := stableSort strLe l

/-! ## Counter / ordered-dict model

Python dicts and `collections.Counter` preserve insertion order; `most_common`
sorts by count descending, ties in first-encountered order (a stable sort). -/

/-- Add one occurrence of `k` to an insertion-ordered counter. -/
def counterAdd [DecidableEq α] (l : List (α × ℕ)) (k : α) : List (α × ℕ) :=
  match l with
  | [] => [(k, 1)]
  | (a, n) :: rest => if a = k then (a, n + 1) :: rest else (a, n) :: counterAdd rest k

/-- Build a counter from a list of keys, preserving first-encounter order. -/
def counterOf [DecidableEq α] (ks : List α) : List (α × ℕ) :=
  ks.foldl counterAdd []

/-- `Counter.most_common()`: stable sort by count descending. -/
def mostCommon (l : List (α × ℕ)) : List (α × ℕ) :=
  stableSort (fun a b => b.2 ≤ a.2) l

/-- Look up a key in an assoc list (Python `d.get(k)`). -/
def alistGet [DecidableEq α] (l : List (α × β)) (k : α) : Option β :=
  match l with
  | [] => none
  | (a, b) :: rest => if a = k then some b else alistGet rest k

/-- Insert-or-update into an insertion-ordered assoc list
(`d[k] = f(old)` / `d.setdefault`). -/
def alistUpdate [DecidableEq α] (l : List (α × β)) (k : α) (d : β) (f : β → β) :
    List (α × β) :=
  match l with
  | [] => [(k, f d)]
  | (a, b) :: rest =>
    if a = k then (a, f b) :: rest else (a, b) :: alistUpdate rest k d f

/-! ## `app/core/circuit_breaker.py` -/

/-- `CircuitState` from `circuit_breaker.py`. -/
inductive CircuitState where
  | closed
  | opened
  | halfOpen
deriving DecidableEq, Repr

/-- The mutable state of a `CircuitBreaker` instance.  `time.time()` values
are modelled as integers supplied by the caller. -/
structure CircuitBreaker where
  failureThreshold : ℕ
  timeout : ℤ
  failureCount : ℕ
  lastFailureTime : Option ℤ
  state : CircuitState
deriving DecidableEq, Repr

/-- `CircuitBreaker.__init__` (defaults `failure_threshold=5`, `timeout=60`). -/
def CircuitBreaker.init (failureThreshold : ℕ := 5) (timeout : ℤ := 60) :
    CircuitBreaker :=
  { failureThreshold := failureThreshold, timeout := timeout, failureCount := 0,
    lastFailureTime := none, state := .closed }

/-- `CircuitBreaker._on_success`: reset the failure count; close the circuit
only when it was half-open. -/
def CircuitBreaker.onSuccess (b : CircuitBreaker) : CircuitBreaker :=
  { b with
    failureCount := 0,
    state := if b.state = .halfOpen then .closed else b.state }

/-- `CircuitBreaker._on_failure`: bump the failure count, stamp the failure
time, and open the circuit once the count reaches the threshold. -/
def CircuitBreaker.onFailure (b : CircuitBreaker) (now : ℤ) : CircuitBreaker :=
  let c := b.failureCount + 1
  { b with
    failureCount := c, lastFailureTime := some now,
    state := if b.failureThreshold ≤ c then .opened else b.state }

/-- Outcome of `CircuitBreaker.call` as seen by the caller:
`rejected` = the "Circuit breaker is OPEN" exception, wrapped function not
invoked; `succeeded` = wrapped function ran and returned; `raised` = wrapped
function ran and raised (the exception is re-raised). -/
inductive CallOutcome where
  | rejected
  | succeeded
  | raised
deriving DecidableEq, Repr

/-- `CircuitBreaker.call`.  `now` is `time.time()`; `funcSucceeds` is whether
the wrapped function would return normally if invoked.  The `none`
`lastFailureTime` branch while open is unreachable from the initial state
(lemma `CircuitBreaker.reachable_opened_invariant`). -/
def CircuitBreaker.call (b : CircuitBreaker) (now : ℤ) (funcSucceeds : Bool) :
    CallOutcome × CircuitBreaker :=
  if b.state = .opened then
    match b.lastFailureTime with
    | some t =>
      if b.timeout ≤ now - t then
        let b1 := { b with state := CircuitState.halfOpen }
        if funcSucceeds then (.succeeded, b1.onSuccess)
        else (.raised, b1.onFailure now)
      else (.rejected, b)
    | none => (.rejected, b)
  else
    if funcSucceeds then (.succeeded, b.onSuccess)
    else (.raised, b.onFailure now)

/-- Breaker states reachable from a freshly constructed breaker by any
sequence of calls. -/
inductive CircuitBreaker.Reachable : CircuitBreaker → Prop where
  | init (th : ℕ) (tmo : ℤ) : CircuitBreaker.Reachable (CircuitBreaker.init th tmo)
  | step {b : CircuitBreaker} (now : ℤ) (f : Bool) :
      CircuitBreaker.Reachable b → CircuitBreaker.Reachable (b.call now f).2

/-! ## `app/core/cache.py`

The Redis server is modelled as explicit state: a reachability flag and a
string-valued key/value store.  JSON payloads are kept as strings; the
`json.dumps`/`json.loads` pair is abstracted as caller-side encode/decode. -/

/-- The remote Redis store as seen by one call. -/
structure RedisServer where
  reachable : Bool
  store : List (String × String)
deriving DecidableEq, Repr

/-- `CacheManager` instance state: just the lazily created client handle. -/
structure CacheManager where
  redisClient : Option Unit
deriving DecidableEq, Repr

/-- A fresh `CacheManager()` (module-level `cache_manager`). -/
def CacheManager.new : CacheManager := { redisClient := none }

/-- `redis.from_url`: fails when the server is unreachable. -/
def redisConnect (srv : RedisServer) : Except String Unit :=
  if srv.reachable then .ok () else .error "connection refused"

/-- `GET key` against the server; errors when unreachable. -/
def redisGet (srv : RedisServer) (key : String) : Except String (Option String) :=
  if srv.reachable then .ok (alistGet srv.store key) else .error "connection refused"

/-- `SETEX key ttl value`; errors when unreachable.  TTL expiry itself is
server behaviour outside this model. -/
def redisSetex (srv : RedisServer) (key : String) (value : String) :
    Except String RedisServer :=
  if srv.reachable then
    .ok { srv with store := alistUpdate srv.store key value (fun _ => value) }
  else .error "connection refused"

/-- `DEL key`; errors when unreachable. -/
def redisDel (srv : RedisServer) (key : String) : Except String RedisServer :=
  if srv.reachable then
    .ok { srv with store := srv.store.filter (fun p => p.1 ≠ key) }
  else .error "connection refused"

/-- `CacheManager._ensure_connected`: lazily connect; a failed connection
attempt is caught and reported as `false`. -/
def CacheManager.ensureConnected (m : CacheManager) (srv : RedisServer) :
    Bool × CacheManager :=
  match m.redisClient with
  | some _ => (true, m)
  | none =>
    match redisConnect srv with
    | .ok _ => (true, { redisClient := some () })
    | .error _ => (false, m)

/-- `CacheManager.get`: `None` when not connected, on any Redis error, on a
miss, or on a falsy (empty) payload; otherwise the stored JSON string. -/
def CacheManager.get (m : CacheManager) (srv : RedisServer) (key : String) :
    Option String × CacheManager :=
  match m.ensureConnected srv with
  | (false, m1) => (none, m1)
  | (true, m1) =>
    match redisGet srv key with
    | .error _ => (none, m1)
    | .ok none => (none, m1)
    | .ok (some v) => (if v = "" then none else some v, m1)

/-- `CacheManager.set`: a no-op when not connected or on a Redis error. -/
def CacheManager.set (m : CacheManager) (srv : RedisServer) (key value : String) :
    CacheManager × RedisServer :=
  match m.ensureConnected srv with
  | (false, m1) => (m1, srv)
  | (true, m1) =>
    match redisSetex srv key value with
    | .error _ => (m1, srv)
    | .ok srv1 => (m1, srv1)

/-- `CacheManager.delete`: a no-op when not connected or on a Redis error. -/
def CacheManager.delete (m : CacheManager) (srv : RedisServer) (key : String) :
    CacheManager × RedisServer :=
  match m.ensureConnected srv with
  | (false, m1) => (m1, srv)
  | (true, m1) =>
    match redisDel srv key with
    | .error _ => (m1, srv)
    | .ok srv1 => (m1, srv1)

/-- `CacheManager._generate_key`.  `md5Hex` abstracts `hashlib.md5(...).
hexdigest()`; `argsRepr` abstracts `f"{args}:{sorted(kwargs.items())}"`.
The global namespace string is `REDIS_CACHE_PREFIX = "codevoyage:cache:"`. -/
def generateKey (md5Hex : String → String) (pref argsRepr : String) : String :=
  "codevoyage:cache:" ++ pref ++ ":" ++ md5Hex (pref ++ ":" ++ argsRepr)

/-- The `cached(prefix, ttl)` decorator applied to an async operation whose
result (already awaited) is `funcResult`, serialized by `dumps`.  Returns the
value handed back to the caller plus the cache/server state after the call. -/
def cachedCall (md5Hex : String → String) (pref argsRepr : String)
    (dumps : String → String) (funcResult : String)
    (m : CacheManager) (srv : RedisServer) :
    String × CacheManager × RedisServer :=
  let key := generateKey md5Hex pref argsRepr
  match m.get srv key with
  | (some cachedValue, m1) => (cachedValue, m1, srv)
  | (none, m1) =>
    let (m2, srv2) := m1.set srv key (dumps funcResult)
    (funcResult, m2, srv2)

/-! ## `app/services/git_service.py` (`get_commits`) -/

/-- `commit.stats.total` as a record (`files`, `insertions`, `deletions`). -/
structure GitStats where
  files : ℤ
  insertions : ℤ
  deletions : ℤ
deriving DecidableEq, Repr

/-- One commit as yielded by `repo.iter_commits` (newest first). -/
structure RawGitCommit where
  sha : String
  message : String
  authorName : String
  authorEmail : String
  committedDate : ℤ
  stats : GitStats
deriving DecidableEq, Repr

/-- One entry of the list returned by `GitService.get_commits`. -/
structure CommitOut where
  sha : String
  message : String
  authorName : String
  authorEmail : String
  committedAt : ℤ
  stats : GitStats
deriving DecidableEq, Repr

/-- Configuration defaults from `config.py`. -/
def MAX_COMMITS_TO_ANALYZE : ℕ := 2000

/-- `COMMIT_STATS_LIMIT` default from `config.py`. -/
def COMMIT_STATS_LIMIT : ℕ := 1000

/-- `MAX_FILES_FOR_COMPLEXITY` default from `config.py`. -/
def MAX_FILES_FOR_COMPLEXITY : ℕ := 2000

/-- `GitService.get_commits`.  `repoCommits` is the commit iteration order
(newest first) provided by git; `maxCount` is the optional override
(`max_count or settings.MAX_COMMITS_TO_ANALYZE`, so `0` is falsy);
`statsLimit` is `settings.COMMIT_STATS_LIMIT`.  Commits at index ≥
`statsLimit` get zeroed stats instead of `commit.stats.total`. -/
def getCommits (repoCommits : List RawGitCommit) (maxCount : Option ℕ)
    (maxDefault statsLimit : ℕ) : List CommitOut :=
  let maxCommits :=
    match maxCount with
    | some n => if n = 0 then maxDefault else n
    | none => maxDefault
  (repoCommits.take maxCommits).enum.map fun (idx, c) =>
    { sha := c.sha, message := c.message, authorName := c.authorName
      authorEmail := c.authorEmail, committedAt := c.committedDate
      stats := if idx < statsLimit then c.stats
               else { files := 0, insertions := 0, deletions := 0 } }

/-! ## `app/services/complexity_service.py` -/

/-- `SUPPORTED_EXTENSIONS` from `complexity_service.py`. -/
def SUPPORTED_EXTENSIONS : List String :=
  [".py", ".js", ".ts", ".jsx", ".tsx", ".java", ".cpp", ".c",
   ".cs", ".go", ".rb", ".php", ".swift", ".kt"]

/-- Directory names pruned by the walk in `analyze_directory`. -/
def SKIP_DIRS : List String :=
  [".git", "node_modules", "__pycache__", "venv", "env"]

/-- A file on disk as seen by the scan: its name, its extension
(`os.path.splitext`), and whether `analyze_file` succeeds on it
(`analysisOk = false` models the `{'error': ...}` result of an unreadable or
unparseable file, which is counted but not collected). -/
structure ScanFile where
  name : String
  ext : String
  analysisOk : Bool
deriving DecidableEq, Repr

/-- A directory tree on disk: files plus named subdirectories. -/
inductive DirTree where
  | node (files : List ScanFile) (subdirs : List (String × DirTree))
deriving Repr

mutual

/-- The files visited by `os.walk` in `analyze_directory` order (current
directory's files first, then each non-pruned subdirectory recursively);
subdirectories named in `SKIP_DIRS` are pruned via `dirs[:] = ...`. -/
def walkFiles : DirTree → List ScanFile
  | .node files subdirs => files ++ walkSubdirs subdirs

/-- Walk the non-pruned subdirectories in order (helper of `walkFiles`). -/
def walkSubdirs : List (String × DirTree) → List ScanFile
  | [] => []
  | (name, t) :: rest =>
    (if name ∈ SKIP_DIRS then [] else walkFiles t) ++ walkSubdirs rest

end

/-- The `for file in files` body of `analyze_directory`, flattened over the
walk order: stop (returning `results`) once `scanned >= max_files`; recognized
extensions are scanned and, when analysis succeeds with a supported result,
collected. -/
def scanLoop (maxFiles : ℕ) : List ScanFile → ℕ → List ScanFile → List ScanFile
  | [], _, results => results
  | f :: rest, scanned, results =>
    if maxFiles ≤ scanned then results
    else if f.ext ∈ SUPPORTED_EXTENSIONS then
      scanLoop maxFiles rest (scanned + 1)
        (results ++ if f.analysisOk then [f] else [])
    else scanLoop maxFiles rest scanned results

/-- `ComplexityService.analyze_directory` over an abstract directory tree. -/
def analyzeDirectory (maxFiles : ℕ) (t : DirTree) : List ScanFile :=
  scanLoop maxFiles (walkFiles t) 0 []

/-- `ComplexityService._calculate_maintainability`, try-block body:
`volume = lloc * log(lloc + 1)`;
`mi = 171 - 5.2*log(volume + 1) - 0.23*complexity - 16.2*log(loc + 1)`;
clamped by `max(0, min(100, mi))`.  `log` abstracts `math.log`. -/
def maintainabilityBody (M : MathOps) (lloc loc : ℕ) (complexity : ℚ) : ℚ :=
  let volume : ℚ := (lloc : ℚ) * M.log ((lloc : ℚ) + 1)
  let mi : ℚ := 171 - 52/10 * M.log (volume + 1) - 23/100 * complexity
    - 162/10 * M.log ((loc : ℚ) + 1)
  max 0 (min 100 mi)

/-- `ComplexityService._calculate_maintainability`: the try/except wrapper.
`attempt = none` models the bare `except:` branch (any computation error),
which returns the neutral default `50.0`. -/
def calculateMaintainability (attempt : Option ℚ) : ℚ :=
  match attempt with
  | some mi => mi
  | none => 50

/-! ## `app/services/insight_service.py`: input model

A `datetime` is abstracted as the tuple of observations the engine makes of
it: its ordering/subtraction key (epoch seconds), `dt.hour`,
`dt.strftime("%A")`, `dt.strftime("%G-W%V")`, and `dt.date().isoformat()`. -/

/-- Abstracted `datetime.datetime`. -/
structure PyDateTime where
  epoch : ℤ
  hour : ℕ
  weekdayName : String
  isoWeek : String
  dateKey : String
deriving DecidableEq, Repr

/-- The `stats` sub-dict of a raw commit; `none` models a missing or
non-integer value (which `_safe_int` replaces by the default 0). -/
structure RawStats where
  insertions : Option ℤ
  deletions : Option ℤ
  files : Option ℤ
deriving DecidableEq, Repr

/-- A raw commit dict as handed to `build_insights`.  `none` models a missing
key (`commit.get(...)` default); `committedAt = none` also covers a
non-parseable timestamp (`_parse_datetime` returns `None`). -/
structure RawCommit where
  sha : Option String
  message : Option String
  authorName : Option String
  stats : Option RawStats
  committedAt : Option PyDateTime
deriving DecidableEq, Repr

/-- A raw contributor dict (`name`, `email`, `commits`); `commits = none`
models a missing/non-integer count (`_safe_int` default 0). -/
structure RawContributor where
  name : Option String
  email : Option String
  commits : Option ℤ
deriving DecidableEq, Repr

/-- A complexity-metrics / hotspot entry: only the two keys the engine reads.
`cyclomaticComplexity = none` models a missing key or a `None` value (real
pipeline entries always carry a number). -/
structure ComplexityItem where
  path : Option String
  cyclomaticComplexity : Option ℚ
deriving DecidableEq, Repr

/-- A file-tree node from `GitService.get_file_tree`: `type` is `"directory"`
(with children) or `"file"` (with a byte size; `none` models a missing/null
size, which `int(... or 0)` turns into 0). -/
inductive FileNode where
  | dir (name path : String) (children : List FileNode)
  | file (name path : String) (size : Option ℤ)
deriving Repr

/-- A flattened file entry (the `file` nodes collected by
`_flatten_file_tree`). -/
structure FlatFile where
  name : String
  path : String
  size : Option ℤ
deriving DecidableEq, Repr

/-- `int(f.get("size", 0) or 0)` on a flat file. -/
def FlatFile.sizeInt (f : FlatFile) : ℤ := f.size.getD 0

/-- `InsightService._normalize_commit`.  (A present-but-`None` name would be
rendered `"None"` by `str`; we fold that case into the caller-side string.) -/
structure NormCommit where
  sha : String
  message : String
  authorName : String
  insertions : ℤ
  deletions : ℤ
  filesChanged : ℤ
  committedAt : Option PyDateTime
deriving DecidableEq, Repr

/-- `_normalize_commit` from `insight_service.py`. -/
def normalizeCommit (c : RawCommit) : NormCommit :=
  let stats := c.stats.getD { insertions := none, deletions := none, files := none }
  { sha := c.sha.getD "", message := c.message.getD "",
    authorName := c.authorName.getD "unknown",
    insertions := stats.insertions.getD 0, deletions := stats.deletions.getD 0,
    filesChanged := stats.files.getD 0, committedAt := c.committedAt }

/-- `insertions + deletions` of a normalized commit. -/
def NormCommit.changes (c : NormCommit) : ℤ := c.insertions + c.deletions

/-- `REFACTOR_KEYWORDS` from `insight_service.py`. -/
def REFACTOR_KEYWORDS : List String :=
  ["refactor", "rewrite", "cleanup", "migrate", "rename", "extract", "modular"]

/-- `any(k in msg for k in REFACTOR_KEYWORDS)` over the lowercased message. -/
def isRefactorMessage (message : String) : Bool :=
  REFACTOR_KEYWORDS.any (fun k => strIn k message.toLower)

/-- Commits that carry a parseable timestamp, in chronological order —
`sorted([x for x in commits if x.get("committed_at")], key=...)`. -/
def chronological (commits : List NormCommit) : List NormCommit :=
  sortByKeyAsc (fun c => ((c.committedAt.map (·.epoch)).getD 0 : ℚ))
    (commits.filter (·.committedAt.isSome))

/-! ## `insight_service.py`: scalar helpers -/

/-- `InsightService._bus_factor`: the running total is compared inclusively
(`running / total >= 0.5`, exact rational arithmetic standing in for the
float division). -/
def busFactor (commitCounts : List ℤ) : ℕ :=
  let total := commitCounts.sum
  if total ≤ 0 then 0
  else
    let rec go : List ℤ → ℤ → ℕ → ℕ
      | [], _, people => people
      | count :: rest, running, people =>
        let running := running + count
        let people := people + 1
        if (running : ℚ) / (total : ℚ) ≥ 1/2 then people
        else go rest running people
    go commitCounts 0 0

/-- `InsightService._percentile` (nearest-rank by truncated index). -/
def percentile (values : List ℤ) (p : ℕ) : ℚ :=
  if values = [] then 0
  else if values.length = 1 then (values.headD 0 : ℚ)
  else
    let idx := pyInt ((p : ℚ) / 100 * ((values.length : ℚ) - 1))
    (values.getD idx.toNat 0 : ℚ)

/-- `statistics.median`: sorts its input, averages the two middle values for
even length.  (The library raises on an empty list; every call site guards
against that, and we return 0 there.) -/
def pyMedian (l : List ℚ) : ℚ :=
  let s := stableSort (fun a b => decide (a ≤ b)) l
  let n := s.length
  if n = 0 then 0
  else if n % 2 = 1 then s.getD (n / 2) 0
  else (s.getD (n / 2 - 1) 0 + s.getD (n / 2) 0) / 2

/-- First maximal element by value (`max(d, key=d.get)` over insertion
order). -/
def argmaxFirst (l : List (String × ℕ)) : Option String :=
  match l with
  | [] => none
  | (k, v) :: rest =>
    some (rest.foldl (fun (best : String × ℕ) kv =>
      if kv.2 > best.2 then kv else best) (k, v)).1

/-- `InsightService._shannon_diversity` (base-2 entropy, rounded to 3
decimals); `log2` abstracts `math.log2`. -/
def shannonDiversity (M : MathOps) (languageStats : List (String × ℕ)) : ℚ :=
  let total : ℕ := (languageStats.map (·.2)).sum
  if total ≤ 0 then 0
  else
    let entropy := languageStats.foldl
      (fun e kc =>
        let p : ℚ := (kc.2 : ℚ) / (total : ℚ)
        e - (if p > 0 then p * M.log2 p else 0))
      0
    pyRound entropy 3

/-! ## `insight_service.py`: section documents -/

/-- `insights["summary"]`. -/
structure SummaryDoc where
  totalCommitsAnalyzed : ℕ
  totalContributors : ℕ
  totalCodeChanges : ℤ
  avgChangesPerCommit : ℚ
deriving DecidableEq, Repr

/-- `insights["development_habits"]`. -/
structure HabitsDoc where
  nightCommitRatio : ℚ
  mostActiveHours : List (ℕ × ℕ)
  mostActiveWeekdays : List (String × ℕ)
deriving DecidableEq, Repr

/-- One `{name, commits}` entry of `team_dynamics.top_contributors`. -/
structure TopContributorEntry where
  name : Option String
  commits : ℤ
deriving DecidableEq, Repr

/-- `insights["team_dynamics"]`. -/
structure TeamDoc where
  topContributors : List TopContributorEntry
  busFactor50Percent : ℕ
  topContributorCommitSharePercent : ℚ
deriving DecidableEq, Repr

/-- One entry of `commit_behavior.largest_commits`. -/
structure LargeCommitEntry where
  sha : String
  author : String
  changes : ℤ
  message : String
deriving DecidableEq, Repr

/-- `insights["commit_behavior"]`. -/
structure CommitBehaviorDoc where
  medianChangesPerCommit : ℚ
  p90ChangesPerCommit : ℚ
  largestCommits : List LargeCommitEntry
deriving DecidableEq, Repr

/-- One entry of `refactor_signals.examples`. -/
structure RefactorExample where
  sha : String
  author : String
  message : String
deriving DecidableEq, Repr

/-- `insights["refactor_signals"]`. -/
structure RefactorDoc where
  keywordDetectedRefactors : ℕ
  examples : List RefactorExample
deriving DecidableEq, Repr

/-- One `{language, files, share_percent}` entry. -/
structure LangEntry where
  language : String
  files : ℕ
  sharePercent : ℚ
deriving DecidableEq, Repr

/-- `insights["language_profile"]`. -/
structure LanguageProfileDoc where
  languages : List LangEntry
  dominantLanguage : Option String
  languageDiversityIndex : ℚ
deriving DecidableEq, Repr

/-- `insights["complexity_profile"]`. -/
structure ComplexityProfileDoc where
  filesScanned : ℕ
  avgCyclomaticComplexity : ℚ
  highRiskFileCount : ℕ
  hotspots : List (Option String × Option ℚ)
deriving DecidableEq, Repr

/-- `insights["repository_structure"]`. -/
structure StructureDoc where
  totalFiles : ℕ
  totalDirectories : ℕ
  maxDepth : ℕ
  totalSizeBytes : ℤ
  largestFiles : List (String × ℤ)
  sizeDistribution : List (String × ℕ)
deriving DecidableEq, Repr

/-- `insights["engineering_signals"]`. -/
structure SignalsDoc where
  hasTests : Bool
  hasCi : Bool
  hasDocker : Bool
  hasDocs : Bool
  notebookCount : ℕ
  configFileCount : ℕ
deriving DecidableEq, Repr

/-- One `{severity, message}` risk flag. -/
structure RiskFlag where
  severity : String
  message : String
deriving DecidableEq, Repr

/-- `insights["insight_quality"]`. -/
structure QualityDoc where
  confidenceScore : ℤ
  notes : List String
deriving DecidableEq, Repr

/-- One point of `time_machine.points`. -/
structure TimePoint where
  date : String
  commitSha : String
  author : String
  dayCommits : ℕ
  dayChanges : ℤ
  uniqueAuthors : ℕ
  rolling7dCommits : ℕ
  rolling7dChanges : ℤ
  cumulativeCommits : ℕ
  cumulativeChanges : ℤ
deriving DecidableEq, Repr

/-- `insights["time_machine"]`. -/
structure TimeMachineDoc where
  points : List TimePoint
  windowStart : Option String
  windowEnd : Option String
deriving DecidableEq, Repr

/-- One blast-radius candidate. -/
structure BlastCandidate where
  path : String
  directory : String
  estimatedNeighborFiles : ℕ
  complexity : ℚ
  sizeBytes : ℤ
  impactScore : ℚ
  riskTier : String
deriving DecidableEq, Repr

/-- `insights["blast_radius"]`. -/
structure BlastDoc where
  candidates : List BlastCandidate
deriving DecidableEq, Repr

/-- The six dimensions of the health scorecard (integer-valued in the
source). -/
structure HealthDimensions where
  ownershipResilience : ℤ
  deliveryReliability : ℤ
  complexityHealth : ℤ
  analysisCoverage : ℤ
  engineeringVelocity : ℤ
  architectureBalance : ℤ
deriving DecidableEq, Repr

/-- `insights["health_scorecard"]`. -/
structure HealthDoc where
  overallScore : ℚ
  dimensions : HealthDimensions
deriving DecidableEq, Repr

/-- `insights["repo_fingerprint"]`. -/
structure FingerprintDoc where
  labels : List String
  tagline : String
deriving DecidableEq, Repr

/-! ## `insight_service.py`: list-shaped helpers -/

/-- `InsightService._rank_languages`. -/
def rankLanguages (languageStats : List (String × ℕ)) : List LangEntry :=
  let total : ℕ := (languageStats.map (·.2)).sum
  (sortByKeyDesc (fun kc => (kc.2 : ℚ)) languageStats).map fun kc =>
    { language := kc.1, files := kc.2,
      sharePercent := if total ≠ 0 then pyRound ((kc.2 : ℚ) / (total : ℚ) * 100) 2 else 0 }

mutual

/-- The `walk` closure of `_flatten_file_tree` on one node: returns the file
nodes collected, the number of directory nodes visited, and the maximum depth
seen (every visited node updates `max_depth`). -/
def walkFileNode : FileNode → ℕ → List FlatFile × ℕ × ℕ
  | .dir _ _ children, depth =>
    let sub := walkFileChildren children (depth + 1)
    (sub.1, sub.2.1 + 1, max depth sub.2.2)
  | .file name path size, depth => ([{ name := name, path := path, size := size }], 0, depth)

/-- `walk` over a directory's children in order. -/
def walkFileChildren : List FileNode → ℕ → List FlatFile × ℕ × ℕ
  | [], _ => ([], 0, 0)
  | c :: rest, depth =>
    let h := walkFileNode c depth
    let t := walkFileChildren rest depth
    (h.1 ++ t.1, h.2.1 + t.2.1, max h.2.2 t.2.2)

end

/-- `InsightService._flatten_file_tree`: `none` models the falsy `{}` root
(the caller passes `file_tree or {}`); the directory count excludes the
synthetic root via `max(0, directory_count - 1)` (truncated subtraction). -/
def flattenFileTree (root : Option FileNode) : List FlatFile × ℕ × ℕ :=
  match root with
  | none => ([], 0, 0)
  | some r =>
    let w := walkFileNode r 0
    (w.1, w.2.1 - 1, w.2.2)

/-- `InsightService._size_distribution` (strict byte thresholds
10240 / 102400 / 1048576). -/
def sizeDistribution (files : List FlatFile) : List (String × ℕ) :=
  let sizes := files.map (·.sizeInt)
  [("<10KB", (sizes.filter (fun s => s < 10240)).length),
   ("10KB-100KB", (sizes.filter (fun s => 10240 ≤ s ∧ s < 102400)).length),
   ("100KB-1MB", (sizes.filter (fun s => 102400 ≤ s ∧ s < 1048576)).length),
   (">1MB", (sizes.filter (fun s => 1048576 ≤ s)).length)]

/-- `InsightService._engineering_signals` over lowercased paths. -/
def engineeringSignals (files : List FlatFile) : SignalsDoc :=
  let paths := files.map (fun f => f.path.toLower)
  { hasTests := paths.any fun p =>
      strIn "/test" p || strStarts p "test" || strIn "tests/" p,
    hasCi := paths.any fun p =>
      strIn ".github/workflows/" p || strIn ".gitlab-ci" p || strIn "jenkinsfile" p,
    hasDocker := paths.any fun p => strIn "dockerfile" p || strIn "docker-compose" p,
    hasDocs := paths.any fun p => strStarts p "docs/" || strEnds p "readme.md",
    notebookCount := (paths.filter fun p => strEnds p ".ipynb").length,
    configFileCount := (paths.filter fun p =>
      strEnds p ".json" || strEnds p ".yaml" || strEnds p ".yml" ||
      strEnds p ".toml" || strEnds p ".ini").length }

/-- `InsightService._risk_flags`: the five rules, appended in source order
(ownership → complexity → tests → CI → history). -/
def riskFlags (totalCommits busFactorVal highRiskFileCount : ℕ)
    (signals : SignalsDoc) : List RiskFlag :=
  (if busFactorVal ≤ 1 ∧ 20 < totalCommits then
    [{ severity := "high", message := "High ownership concentration (bus factor <= 1)." }]
   else []) ++
  (if 20 < highRiskFileCount then
    [{ severity := "high", message := "Large number of high-complexity files detected." }]
   else []) ++
  (if signals.hasTests = false then
    [{ severity := "medium", message := "No obvious test structure detected." }]
   else []) ++
  (if signals.hasCi = false then
    [{ severity := "medium", message := "No CI workflow detected." }]
   else []) ++
  (if totalCommits < 10 then
    [{ severity := "low", message := "Limited commit history; behavior insights have low confidence." }]
   else [])

/-- `InsightService._insight_quality` (`int(total_files * 0.2)` truncates). -/
def insightQuality (totalCommits totalFiles complexityScanned : ℕ) : QualityDoc :=
  let c0 : ℤ := 100
  let n0 : List String := []
  let c1 := if totalCommits < 30 then c0 - 25 else c0
  let n1 := if totalCommits < 30 then
    n0 ++ ["Low commit history reduces behavior signal quality."] else n0
  let coverageLow := 0 < totalFiles ∧ (complexityScanned : ℤ) < pyInt ((totalFiles : ℚ) * (2/10))
  let c2 := if coverageLow then c1 - 20 else c1
  let n2 := if coverageLow then
    n1 ++ ["Complexity scan covered a limited subset of files."] else n1
  let c3 := if totalFiles < 20 then c2 - 10 else c2
  let n3 := if totalFiles < 20 then
    n2 ++ ["Small codebase size limits structural signal richness."] else n2
  { confidenceScore := max 0 c3, notes := n3 }

/-- Per-day aggregation record of `_build_time_machine`. -/
structure DayAgg where
  dayCommits : ℕ
  dayChanges : ℤ
  authors : List (String × ℕ)
  commitSha : String
deriving DecidableEq, Repr

/-- `InsightService._build_time_machine`. -/
def buildTimeMachine (commits : List NormCommit) : TimeMachineDoc :=
  let ordered := chronological commits
  let daily : List (String × DayAgg) := ordered.foldl
    (fun d c =>
      let dateKey := (c.committedAt.map (·.dateKey)).getD ""
      let changes := c.insertions + c.deletions
      alistUpdate d dateKey
        { dayCommits := 0, dayChanges := 0, authors := [], commitSha := "" }
        (fun p =>
          { dayCommits := p.dayCommits + 1, dayChanges := p.dayChanges + changes,
            authors := counterAdd p.authors (pyOrStr c.authorName "unknown"),
            commitSha := strTake c.sha 10 }))
    []
  let step := fun (st : ℕ × ℤ × List ℕ × List ℤ × List TimePoint) (dateKey : String) =>
    let (cumC, cumCh, rollC, rollCh, acc) := st
    let day := (alistGet daily dateKey).getD
      { dayCommits := 0, dayChanges := 0, authors := [], commitSha := "" }
    let cumC := cumC + day.dayCommits
    let cumCh := cumCh + day.dayChanges
    let rollC := rollC ++ [day.dayCommits]
    let rollC := if 7 < rollC.length then rollC.tail else rollC
    let rollCh := rollCh ++ [day.dayChanges]
    let rollCh := if 7 < rollCh.length then rollCh.tail else rollCh
    let leadAuthor := if day.authors = [] then "unknown"
      else ((mostCommon day.authors).headD ("unknown", 0)).1
    (cumC, cumCh, rollC, rollCh, acc ++
      [{ date := dateKey, commitSha := day.commitSha, author := leadAuthor,
         dayCommits := day.dayCommits, dayChanges := day.dayChanges,
         uniqueAuthors := day.authors.length,
         rolling7dCommits := rollC.sum, rolling7dChanges := rollCh.sum,
         cumulativeCommits := cumC, cumulativeChanges := cumCh }])
  let timeline := ((sortStrings (daily.map (·.1))).foldl step (0, 0, [], [], [])).2.2.2.2
  let timeline := if 250 < timeline.length
    then everyNth timeline (max 1 (timeline.length / 250)) else timeline
  { points := timeline,
    windowStart := (timeline.head?).map (·.date),
    windowEnd := (timeline.getLast?).map (·.date) }

/-- `path.rsplit("/", 1)[0] if "/" in path else "."`. -/
def dirName (path : String) : String :=
  if strIn "/" path then
    ⟨((path.data.reverse.dropWhile (· ≠ '/')).drop 1).reverse⟩
  else "."

/-- `InsightService._build_blast_radius`.  `complexity_by_path` is a dict
comprehension, so later entries win the lookup. -/
def buildBlastRadius (M : MathOps) (files : List FlatFile)
    (hotspots : List ComplexityItem) (complexityMetrics : List ComplexityItem) :
    BlastDoc :=
  let complexityByPath := fun (p : String) =>
    alistGet (complexityMetrics.reverse.map fun i =>
      (pyStrOpt i.path, i.cyclomaticComplexity.getD 0)) p
  let filesByDir : List (String × ℕ) := files.foldl
    (fun d f => alistUpdate d (dirName f.path) 0 (· + 1)) []
  let baseCandidates : List ComplexityItem :=
    if hotspots ≠ [] then hotspots.take 15
    else ((sortByKeyDesc (fun f => (f.sizeInt : ℚ)) files).take 15).map fun f =>
      { path := some f.path,
        cyclomaticComplexity := some ((complexityByPath f.path).getD 0) }
  let candidates := baseCandidates.map fun item =>
    let path := (item.path).getD ""
    let directory := dirName path
    let complexity : ℚ :=
      match item.cyclomaticComplexity with
      | some q => q
      | none => (complexityByPath path).getD 0
    let size : ℤ := ((files.find? (fun f => f.path = path)).map (·.sizeInt)).getD 0
    let neighborFiles : ℕ := (alistGet filesByDir directory).getD 1
    let impactScore := pyRound
      (min 100 (complexity * (11/5) + M.log2 ((size : ℚ) + 2) * 3 +
        (neighborFiles : ℚ) * (1/4))) 2
    { path := path, directory := directory,
      estimatedNeighborFiles := neighborFiles,
      complexity := pyRound complexity 2, sizeBytes := size,
      impactScore := impactScore,
      riskTier := if 70 ≤ impactScore then "high"
        else if 40 ≤ impactScore then "medium" else "low" }
  { candidates := (sortByKeyDesc (·.impactScore) candidates).take 20 }

/-- The `overall = round(Σ wᵢ·dᵢ, 2)` combination at the end of
`_health_scorecard` (weights 0.18 / 0.22 / 0.20 / 0.12 / 0.14 / 0.14). -/
def overallScore (d : HealthDimensions) : ℚ :=
  pyRound ((d.ownershipResilience : ℚ) * (18/100)
    + (d.deliveryReliability : ℚ) * (22/100)
    + (d.complexityHealth : ℚ) * (2/10)
    + (d.analysisCoverage : ℚ) * (12/100)
    + (d.engineeringVelocity : ℚ) * (14/100)
    + (d.architectureBalance : ℚ) * (14/100)) 2

/-- `InsightService._health_scorecard`. -/
def healthScorecard (M : MathOps) (totalCommits busFactorVal highRiskFileCount : ℕ)
    (signals : SignalsDoc) (languageStats : List (String × ℕ))
    (complexityScanned totalFiles : ℕ) : HealthDoc :=
  let ownership : ℤ := min 100 (20 + (busFactorVal : ℤ) * 8)
  let reliability : ℤ := 100 - (if signals.hasTests then 0 else 30)
    - (if signals.hasCi then 0 else 20) - (if signals.hasDocs then 0 else 10)
  let complexityRisk : ℤ := max 0 (100 - (highRiskFileCount : ℤ) * 4)
  let dataCoverage : ℤ :=
    if 0 < totalFiles then
      let coverageRatio : ℚ := (complexityScanned : ℚ) / (totalFiles : ℚ)
      if coverageRatio < 1/5 then 60 else if coverageRatio < 1/2 then 80 else 100
    else 100
  let velocity : ℤ :=
    if 200 ≤ totalCommits then 100 else max 30 (pyInt ((totalCommits : ℚ) / 2))
  let architecture : ℤ :=
    min 100 (40 + pyInt (shannonDiversity M languageStats * 20))
  let dims : HealthDimensions :=
    { ownershipResilience := max 0 ownership,
      deliveryReliability := max 0 reliability,
      complexityHealth := max 0 complexityRisk,
      analysisCoverage := max 0 dataCoverage,
      engineeringVelocity := max 0 velocity,
      architectureBalance := max 0 architecture }
  { overallScore := overallScore dims, dimensions := dims }

/-- `InsightService._repo_fingerprint` (`habits` carries only the night-commit
ratio at the call site). -/
def repoFingerprint (signals : SignalsDoc) (nightCommitRatio : ℚ)
    (healthScore : ℚ) (languageStats : List (String × ℕ)) : FingerprintDoc :=
  let dominant := (argmaxFirst languageStats).getD "unknown"
  let labels := ["Dominant language family: " ++ dominant] ++
    (if 25 ≤ nightCommitRatio then ["Night-Shift Builders"]
     else if nightCommitRatio ≤ 8 then ["Daylight Delivery Team"] else []) ++
    (if signals.hasTests ∧ signals.hasCi then ["Quality-Guarded Pipeline"] else []) ++
    (if 0 < signals.notebookCount then ["Exploration + Product Blend"] else []) ++
    (if 85 ≤ healthScore then ["Operationally Mature Codebase"]
     else if healthScore < 60 then ["Refactor Opportunity Zone"] else [])
  { labels := labels.take 6, tagline := String.intercalate " | " (labels.take 3) }

/-! ## `insight_service.py`: collaboration story -/

/-- One `{from, to, count}` handoff entry (`from`/`to` renamed — `from` is a
Lean keyword). -/
structure HandoffEntry where
  source : String
  target : String
  count : ℕ
deriving DecidableEq, Repr

/-- One entry of `collaboration_story.contributor_bands`. -/
structure ContributorBand where
  name : String
  commits : ℕ
  sharePercent : ℚ
  band : String
deriving DecidableEq, Repr

/-- One entry of `collaboration_story.weekly_collaboration`. -/
structure WeekCollab where
  week : String
  commits : ℕ
  contributors : ℕ
  handoffs : ℕ
  handoffDensityPercent : ℚ
deriving DecidableEq, Repr

/-- `collaboration_story.metrics`. -/
structure CollabMetrics where
  activeContributors : ℕ
  handoffEvents : ℕ
  crossAuthorHandoffs : ℕ
deriving DecidableEq, Repr

/-- `insights["collaboration_story"]`. -/
structure CollabDoc where
  headline : String
  collaborationIndex : ℚ
  metrics : CollabMetrics
  topHandoffs : List HandoffEntry
  contributorBands : List ContributorBand
  weeklyCollaboration : List WeekCollab
  narrative : List String
deriving DecidableEq, Repr

/-- Insertion-ordered set insertion (Python `set.add` observed only through
`len`; insertion order kept for determinism of the model). -/
def setAdd (l : List String) (s : String) : List String :=
  if s ∈ l then l else l ++ [s]

/-- Per-week aggregation record of `_collaboration_story`. -/
structure WeekAggC where
  commits : ℕ
  changes : ℤ
  contributors : List String
  handoffs : ℕ
deriving DecidableEq, Repr

/-- The empty-history document returned by `_collaboration_story`. -/
def collabEmpty : CollabDoc :=
  { headline := "No collaboration timeline available.",
    collaborationIndex := 0,
    metrics := { activeContributors := 0, handoffEvents := 0, crossAuthorHandoffs := 0 },
    topHandoffs := [], contributorBands := [], weeklyCollaboration := [],
    narrative := ["No commit history was available to infer collaboration behavior."] }

/-- `InsightService._collaboration_story`. -/
def collaborationStory (M : MathOps) (commits : List NormCommit) : CollabDoc :=
  let ordered := chronological commits
  if ordered = [] then collabEmpty
  else
    let authorCounts := counterOf (ordered.map fun c => pyOrStr c.authorName "unknown")
    let totalCommits := ordered.length
    let blank : WeekAggC := { commits := 0, changes := 0, contributors := [], handoffs := 0 }
    let scan := ordered.foldl
      (fun (st : Option NormCommit × List (String × WeekAggC) ×
          List ((String × String) × ℕ)) c =>
        let (previous, weekly, pairs) := st
        let weekKey := (c.committedAt.map (·.isoWeek)).getD ""
        let weekly := alistUpdate weekly weekKey blank fun b =>
          { b with
            commits := b.commits + 1,
            changes := b.changes + (c.insertions + c.deletions),
            contributors := setAdd b.contributors (pyOrStr c.authorName "unknown") }
        let isHandoff : Bool :=
          match previous with
          | none => false
          | some p =>
            p.authorName ≠ c.authorName &&
            decide ((((c.committedAt.map (·.epoch)).getD 0 -
              (p.committedAt.map (·.epoch)).getD 0 : ℤ) : ℚ) / 3600 ≤ 72)
        let pairs := if isHandoff then
            counterAdd pairs
              (pyOrStr ((previous.map (·.authorName)).getD "") "unknown",
               pyOrStr c.authorName "unknown")
          else pairs
        let weekly := if isHandoff then
            alistUpdate weekly weekKey blank (fun b => { b with handoffs := b.handoffs + 1 })
          else weekly
        (some c, weekly, pairs))
      (none, [], [])
    let weekly := scan.2.1
    let handoffPairs := scan.2.2
    let topHandoffs := ((mostCommon handoffPairs).take 6).map fun p =>
      { source := p.1.1, target := p.1.2, count := p.2 }
    let handoffEvents := (handoffPairs.map (·.2)).sum
    let topAuthorShare : ℚ :=
      if totalCommits ≠ 0 then
        ((((mostCommon authorCounts).headD ("", 0)).2 : ℚ) / (totalCommits : ℚ)) * 100
      else 0
    let collaborationIndex := pyRound
      (min 100 ((100 - topAuthorShare) * (55/100)
        + (min 100 (((handoffEvents : ℚ) / (max 1 (totalCommits - 1) : ℕ)) * 120)) * (45/100)))
      2
    let weeklyCollaboration := (takeLast (sortStrings (weekly.map (·.1))) 16).map
      fun weekKey =>
        let b := (alistGet weekly weekKey).getD blank
        { week := weekKey, commits := b.commits, contributors := b.contributors.length,
          handoffs := b.handoffs,
          handoffDensityPercent :=
            pyRound (((b.handoffs : ℚ) / (max 1 (b.commits - 1) : ℕ)) * 100) 2 }
    let contributorBands := ((mostCommon authorCounts).take 10).map fun nc =>
      let share : ℚ := if totalCommits ≠ 0 then
        pyRound (((nc.2 : ℚ) / (totalCommits : ℚ)) * 100) 2 else 0
      { name := nc.1, commits := nc.2, sharePercent := share,
        band := if 20 ≤ share then "core" else if 8 ≤ share then "active" else "support" }
    let headline :=
      if 70 ≤ collaborationIndex then "Cross-team collaboration is healthy and distributed."
      else if 45 ≤ collaborationIndex then
        "Collaboration is moderate; ownership is somewhat concentrated."
      else "Collaboration is concentrated; knowledge-sharing risk is elevated."
    let narrative :=
      [toString authorCounts.length ++ " contributors participated, with " ++
        toString handoffEvents ++ " near-term cross-author handoffs.",
       "Top contributor share is " ++ M.fmt (pyRound topAuthorShare 2) ++
        "%, driving a collaboration index of " ++ M.fmt collaborationIndex ++ "."] ++
      (match topHandoffs.head? with
       | some top =>
         ["Most frequent handoff path: " ++ top.source ++ " -> " ++ top.target ++
          " (" ++ toString top.count ++ " transitions)."]
       | none => [])
    let metrics : CollabMetrics :=
      { activeContributors := authorCounts.length,
        handoffEvents := handoffEvents, crossAuthorHandoffs := handoffEvents }
    { headline := headline, collaborationIndex := collaborationIndex,
      metrics := metrics,
      topHandoffs := topHandoffs, contributorBands := contributorBands,
      weeklyCollaboration := weeklyCollaboration, narrative := narrative }

/-! ## `insight_service.py`: weekly health digest -/

/-- One entry of `weekly_health_digest.weeks`. -/
structure WeekEntry where
  week : String
  commits : ℕ
  changes : ℤ
  contributors : ℕ
  avgChangesPerCommit : ℚ
  nightCommitRatio : ℚ
  refactorCommits : ℕ
deriving DecidableEq, Repr

/-- `weekly_health_digest.trend`. -/
structure TrendDoc where
  commitDeltaPercent : ℚ
  changeDeltaPercent : ℚ
  contributorDelta : ℤ
  nightRatioDelta : ℚ
  momentum : String
deriving DecidableEq, Repr

/-- `insights["weekly_health_digest"]` (`latest = {}` and `trend = {}` of the
empty-history branch are modelled as `none`). -/
structure DigestDoc where
  latestWeek : Option String
  weeks : List WeekEntry
  latest : Option WeekEntry
  trend : Option TrendDoc
  highlights : List String
deriving DecidableEq, Repr

/-- Per-week aggregation record of `_weekly_health_digest`. -/
structure WeekAggD where
  commits : ℕ
  changes : ℤ
  nightCommits : ℕ
  refactorCommits : ℕ
  contributors : List String
deriving DecidableEq, Repr

/-- The empty-history document returned by `_weekly_health_digest`. -/
def digestEmpty : DigestDoc :=
  { latestWeek := none, weeks := [], latest := none, trend := none,
    highlights := ["No weekly digest available without commit timestamps."] }

/-- `_delta_pct` from `_weekly_health_digest`. -/
def deltaPct (current prev : ℚ) : ℚ :=
  if prev = 0 then (if 0 < current then 100 else 0)
  else pyRound ((current - prev) / prev * 100) 2

/-- `InsightService._weekly_health_digest`. -/
def weeklyHealthDigest (M : MathOps) (commits : List NormCommit) : DigestDoc :=
  let ordered := chronological commits
  if ordered = [] then digestEmpty
  else
    let blank : WeekAggD :=
      { commits := 0, changes := 0, nightCommits := 0,
        refactorCommits := 0, contributors := [] }
    let weekly := ordered.foldl
      (fun w c =>
        let weekKey := (c.committedAt.map (·.isoWeek)).getD ""
        alistUpdate w weekKey blank fun b =>
          { commits := b.commits + 1,
            changes := b.changes + (c.insertions + c.deletions),
            nightCommits := b.nightCommits +
              (if ((c.committedAt.map (·.hour)).getD 0) < 6 then 1 else 0),
            refactorCommits := b.refactorCommits + (if isRefactorMessage c.message then 1 else 0),
            contributors := setAdd b.contributors (pyOrStr c.authorName "unknown") })
      []
    let weeks : List WeekEntry := (takeLast (sortStrings (weekly.map (·.1))) 16).map fun weekKey =>
      let b := (alistGet weekly weekKey).getD blank
      { week := weekKey, commits := b.commits, changes := b.changes,
        contributors := b.contributors.length,
        avgChangesPerCommit := if b.commits ≠ 0 then
          pyRound ((b.changes : ℚ) / (b.commits : ℚ)) 2 else 0,
        nightCommitRatio := if b.commits ≠ 0 then
          pyRound (((b.nightCommits : ℚ) / (b.commits : ℚ)) * 100) 2 else 0,
        refactorCommits := b.refactorCommits }
    let blankWeek : WeekEntry :=
      { week := "", commits := 0, changes := 0, contributors := 0,
        avgChangesPerCommit := 0, nightCommitRatio := 0, refactorCommits := 0 }
    let latest := weeks.getLastD blankWeek
    let previous : Option WeekEntry :=
      if 1 < weeks.length then some (weeks.getD (weeks.length - 2) blankWeek) else none
    let commitDelta := match previous with
      | some p => deltaPct (latest.commits : ℚ) (p.commits : ℚ)
      | none => 0
    let changeDelta := match previous with
      | some p => deltaPct (latest.changes : ℚ) (p.changes : ℚ)
      | none => 0
    let contributorDelta : ℤ := match previous with
      | some p => (latest.contributors : ℤ) - (p.contributors : ℤ)
      | none => 0
    let nightDelta := match previous with
      | some p => pyRound (latest.nightCommitRatio - p.nightCommitRatio) 2
      | none => 0
    let momentum :=
      if 10 ≤ commitDelta ∧ nightDelta ≤ 5 then "improving"
      else if commitDelta ≤ -15 ∨ 10 ≤ nightDelta then "watch"
      else "stable"
    let trend : TrendDoc :=
      { commitDeltaPercent := commitDelta,
        changeDeltaPercent := changeDelta, contributorDelta := contributorDelta,
        nightRatioDelta := nightDelta, momentum := momentum }
    let highlights :=
      ["Latest week " ++ latest.week ++ ": " ++ toString latest.commits ++
        " commits, " ++ toString latest.contributors ++ " active contributors.",
       "Week-over-week commit delta: " ++ M.fmt commitDelta ++
        "% and change delta: " ++ M.fmt changeDelta ++ "%.",
       "Night-commit ratio is " ++ M.fmt latest.nightCommitRatio ++ "% (" ++
        M.fmt nightDelta ++ "% delta vs previous week)."] ++
      (if 0 < latest.refactorCommits then
        ["Refactor-tagged commits this week: " ++ toString latest.refactorCommits ++ "."]
       else [])
    { latestWeek := some latest.week, weeks := weeks, latest := some latest,
      trend := some trend, highlights := highlights }

/-! ## `insight_service.py`: release readiness -/

/-- One release gate. -/
structure GateEntry where
  name : String
  status : String
  detail : String
deriving DecidableEq, Repr

/-- `release_readiness.severity_counts`. -/
structure SeverityCounts where
  high : ℕ
  medium : ℕ
  low : ℕ
deriving DecidableEq, Repr

/-- `insights["release_readiness"]`. -/
structure ReleaseDoc where
  score : ℚ
  tier : String
  shipConfidence : ℤ
  severityCounts : SeverityCounts
  gates : List GateEntry
  blockers : List String
  recommendations : List String
deriving DecidableEq, Repr

/-- `InsightService._release_readiness` (`team_info`/`complexity_profile`
carry only the bus factor and the high-risk file count at the call site). -/
def releaseReadiness (M : MathOps) (health : HealthDoc) (flags : List RiskFlag)
    (signals : SignalsDoc) (busFactorVal highRiskFileCount : ℕ) : ReleaseDoc :=
  let baseScore := health.overallScore
  let severityCounts : SeverityCounts :=
    { high := (flags.filter (·.severity = "high")).length,
      medium := (flags.filter (·.severity = "medium")).length,
      low := (flags.filter (·.severity = "low")).length }
  let score := baseScore
    - severityCounts.high * 12 - severityCounts.medium * 6 - severityCounts.low * 2
    - (if signals.hasTests then 0 else 15) - (if signals.hasCi then 0 else 15)
    - (if busFactorVal ≤ 1 then 12 else if busFactorVal ≤ 2 then 6 else 0)
    - (if 20 ≤ highRiskFileCount then 15 else if 10 ≤ highRiskFileCount then 8 else 0)
  let score := pyRound (max 0 (min 100 score)) 2
  let reliability : ℚ := (health.dimensions.deliveryReliability : ℚ)
  let gates : List GateEntry :=
    [{ name := "Test Signal",
       status := if signals.hasTests then "pass" else "fail",
       detail := if signals.hasTests then "Tests detected"
         else "No clear test directory detected" },
     { name := "CI Pipeline",
       status := if signals.hasCi then "pass" else "fail",
       detail := if signals.hasCi then "CI workflow detected" else "No CI workflow detected" },
     { name := "Ownership Resilience",
       status := if 3 ≤ busFactorVal then "pass"
         else if busFactorVal = 2 then "warn" else "fail",
       detail := "Bus factor(50%) = " ++ toString busFactorVal },
     { name := "Complexity Pressure",
       status := if highRiskFileCount ≤ 5 then "pass"
         else if highRiskFileCount ≤ 15 then "warn" else "fail",
       detail := toString highRiskFileCount ++ " high-risk files" },
     { name := "Delivery Reliability",
       status := if 75 ≤ reliability then "pass"
         else if 55 ≤ reliability then "warn" else "fail",
       detail := "Score " ++ M.fmt (pyRound reliability 2) }]
  let blockers := ((flags.filter (·.severity = "high")).map (·.message) ++
    (gates.filter (·.status = "fail")).map (fun g => g.name ++ ": " ++ g.detail))
  let blockers := (blockers.filter (· ≠ "")).take 8
  let tierRec : String × String :=
    if 85 ≤ score then
      ("ready", "Release posture is strong. Maintain current guardrails and monitor regressions.")
    else if 70 ≤ score then
      ("stabilizing", "Near-ready. Address failing gates before broad rollout.")
    else if 55 ≤ score then
      ("hardening", "Needs hardening. Prioritize tests/CI and ownership resilience.")
    else ("not_ready", "Block release. Resolve critical risk flags and failing quality gates.")
  let recommendations :=
    [tierRec.2,
     if 10 < highRiskFileCount then
       "Reduce high-complexity hotspots in frequently changed modules."
     else "Keep complexity hotspots under active review.",
     if busFactorVal ≤ 2 then
       "Increase contributor overlap to reduce ownership concentration."
     else "Preserve cross-team code ownership patterns."]
  { score := score, tier := tierRec.1, shipConfidence := pyRoundInt score,
    severityCounts := severityCounts, gates := gates, blockers := blockers,
    recommendations := recommendations }

/-! ## `insight_service.py`: repo archetypes -/

/-- One archetype badge. -/
structure Badge where
  name : String
  tier : String
  confidence : ℤ
  reason : String
deriving DecidableEq, Repr

/-- `insights["repo_archetypes"]`. -/
structure ArchetypesDoc where
  primary : String
  badges : List Badge
  storyline : String
deriving DecidableEq, Repr

/-- `add_badge`'s confidence normalization:
`int(round(max(0, min(100, confidence))))`. -/
def badgeConfidence (c : ℚ) : ℤ := pyRoundInt (max 0 (min 100 c))

/-- `InsightService._repo_archetypes` (the `habits`/`summary` dicts carry the
night ratio, total commits, average change size and top-contributor share at
the call site). -/
def repoArchetypes (health : HealthDoc) (signals : SignalsDoc)
    (nightRatio : ℚ) (totalCommits : ℕ) (avgChanges topShare : ℚ)
    (highRiskFiles : ℕ) : ArchetypesDoc :=
  let reliability : ℚ := (health.dimensions.deliveryReliability : ℚ)
  let ownership : ℚ := (health.dimensions.ownershipResilience : ℚ)
  let complexityHealth : ℚ := (health.dimensions.complexityHealth : ℚ)
  let badges : List Badge :=
    (if signals.hasTests ∧ signals.hasCi then
      [{ name := "Quality Gatekeepers", tier := "strong",
         confidence := badgeConfidence (70 + reliability * (25/100)),
         reason := "Repository shows tests and CI workflow coverage." }] else []) ++
    (if nightRatio ≤ 10 then
      [{ name := "Daylight Delivery Crew", tier := "emerging",
         confidence := badgeConfidence (65 + max 0 (10 - nightRatio) * 2),
         reason := "Most work lands during standard collaboration windows." }] else []) ++
    (if 25 ≤ nightRatio then
      [{ name := "Night Shift Builders", tier := "emerging",
         confidence := badgeConfidence (min 95 (60 + nightRatio)),
         reason := "A substantial share of commits land late night." }] else []) ++
    (if 500 ≤ totalCommits ∧ 80 ≤ avgChanges then
      [{ name := "Velocity Engine", tier := "strong",
         confidence := badgeConfidence
           (min 96 (55 + (totalCommits : ℚ) / 40 + avgChanges / 6)),
         reason := "High commit volume and substantial per-commit changes suggest strong throughput." }] else []) ++
    (if highRiskFiles ≤ 5 ∧ 75 ≤ complexityHealth then
      [{ name := "Refactor Ready", tier := "strong",
         confidence := badgeConfidence (70 + complexityHealth * (2/10)),
         reason := "Complexity hotspots are contained for safe refactors." }] else []) ++
    (if 60 ≤ topShare then
      [{ name := "Single-Threaded Core", tier := "risk",
         confidence := badgeConfidence (min 95 (60 + (topShare - 60) * (3/2))),
         reason := "One contributor owns the majority of commits, creating concentration risk." }] else []) ++
    (if topShare ≤ 30 ∧ 65 ≤ ownership then
      [{ name := "Shared Ownership Guild", tier := "strong",
         confidence := badgeConfidence (65 + ownership * (25/100)),
         reason := "Ownership is distributed across contributors with healthy resilience." }] else []) ++
    (if signals.hasDocs then
      [{ name := "Docs-Aware Builders", tier := "emerging",
         confidence := badgeConfidence (60 + (if signals.hasTests then 10 else 0)),
         reason := "Documentation artifacts are present in the codebase." }] else [])
  let badges := if badges = [] then
      [{ name := "Emerging Codebase", tier := "emerging",
         confidence := badgeConfidence (max 30 health.overallScore),
         reason := "Repository signals are still forming; more history will sharpen characterization." }]
    else badges
  let badges := (sortByKeyDesc (fun b => (b.confidence : ℚ)) badges).take 6
  let primary := match badges with
    | b :: _ => b.name
    | [] => ""
  { primary := primary, badges := badges,
    storyline := primary ++ " with " ++ toString badges.length ++
      " detected engineering archetype signal(s)." }

/-! ## `insight_service.py`: anomaly detective -/

/-- One anomaly item (`_add_anomaly`); the commit-derived keys are present
only when a commit is attached. -/
structure Anomaly where
  type : String
  severity : String
  score : ℚ
  headline : String
  detail : String
  date : Option String
  commitSha : Option String
  author : Option String
  changes : Option ℤ
deriving DecidableEq, Repr

/-- One `{type, label, count}` entry of `anomaly_detective.counts_by_type`. -/
structure TypeCount where
  type : String
  label : String
  count : ℕ
deriving DecidableEq, Repr

/-- `insights["anomaly_detective"]`. -/
structure AnomalyDoc where
  riskIndex : ℚ
  anomalyCount : ℕ
  anomalyRatePercent : ℚ
  countsByType : List TypeCount
  highlights : List Anomaly
  recommendedChecks : List String
deriving DecidableEq, Repr

/-- `_add_anomaly`: build one anomaly record. -/
def mkAnomaly (ty sev : String) (score : ℚ) (headline detail : String)
    (commit : Option NormCommit) (day : Option String) : Anomaly :=
  { type := ty, severity := sev, score := pyRound score 2,
    headline := headline, detail := detail,
    date := match day with
      | some d => some d
      | none => commit.map fun c => (c.committedAt.map (·.dateKey)).getD "",
    commitSha := commit.map fun c => strTake c.sha 10,
    author := commit.map fun c => pyOrStr c.authorName "unknown",
    changes := commit.map fun c => c.insertions + c.deletions }

/-- The empty-history document returned by `_anomaly_detective`. -/
def anomalyEmpty : AnomalyDoc :=
  { riskIndex := 0, anomalyCount := 0, anomalyRatePercent := 0,
    countsByType := [], highlights := [],
    recommendedChecks := ["No anomalies available without commit history."] }

/-- Severity rank used by the anomaly sort (`{"high": 3, "medium": 2,
"low": 1}`, default 0). -/
def severityRank (s : String) : ℕ :=
  if s = "high" then 3 else if s = "medium" then 2 else if s = "low" then 1 else 0

/-- `InsightService._anomaly_detective`. -/
def anomalyDetective (commits : List NormCommit) : AnomalyDoc :=
  let ordered := chronological commits
  if ordered = [] then anomalyEmpty
  else
    let commitSizes := stableSort (fun a b => decide (a ≤ b))
      (ordered.map fun c => c.insertions + c.deletions)
    let filesChangedSorted := stableSort (fun a b => decide (a ≤ b))
      (ordered.map (·.filesChanged))
    let p90Changes := percentile commitSizes 90
    let p95Changes := percentile commitSizes 95
    let p95Files := percentile filesChangedSorted 95
    let dailyBuckets : List (String × List NormCommit) := ordered.foldl
      (fun d c =>
        let dayKey := (c.committedAt.map (·.dateKey)).getD ""
        alistUpdate d dayKey [] (fun l => l ++ [c]))
      []
    let dailyCommitCounts := dailyBuckets.map fun p => p.2.length
    let medianDailyCommits : ℚ :=
      if dailyCommitCounts ≠ [] then pyMedian (dailyCommitCounts.map fun n => (n : ℚ))
      else 1
    let perCommit : List Anomaly := ordered.flatMap fun c =>
      let hour := (c.committedAt.map (·.hour)).getD 0
      let message := c.message.toLower
      let changes := c.insertions + c.deletions
      let files := c.filesChanged
      (if max 500 (p95Changes * (18/10)) ≤ (changes : ℚ) then
        [mkAnomaly "mega_commit"
          (if max 1200 (p95Changes * (23/10)) ≤ (changes : ℚ) then "high" else "medium")
          (min 100 (55 + ((changes : ℚ) / max 1 (p90Changes + 1)) * 16))
          "Large commit spike"
          ("Commit changed " ++ toString changes ++ " lines in one push.")
          (some c) none]
       else []) ++
      (if hour < 5 ∧ max 220 (p90Changes * (135/100)) ≤ (changes : ℚ) then
        [mkAnomaly "off_hours_heavy_change" "medium"
          (min 100 (45 + ((changes : ℚ) / max 1 (p90Changes + 1)) * 10))
          "Large off-hours commit"
          ("Heavy change landed at " ++ pad2 hour ++ ":00, increasing review risk.")
          (some c) none]
       else []) ++
      (if max 35 (p95Files * (15/10)) ≤ (files : ℚ) then
        [mkAnomaly "wide_surface_area" (if 80 ≤ files then "high" else "medium")
          (min 100 (50 + (files : ℚ) * (7/10)))
          "Wide-surface change"
          ("Commit touched " ++ toString files ++ " files, which can hide regressions.")
          (some c) none]
       else []) ++
      (if (strIn "revert" message || strIn "hotfix" message) ∧
          max 80 (p90Changes * (75/100)) ≤ (changes : ℚ) then
        [mkAnomaly "stability_event" "medium"
          (min 100 (42 + (changes : ℚ) * (5/100)))
          "Stability-related high-change commit"
          "Revert/hotfix keyword appears in a relatively large commit."
          (some c) none]
       else [])
    let bursts : List Anomaly := dailyBuckets.flatMap fun p =>
      let (day, dayCommits) := p
      if max 8 ⌈medianDailyCommits * 3⌉ ≤ (dayCommits.length : ℤ) then
        let largest := dayCommits.foldl
          (fun (best : NormCommit) c =>
            if best.insertions + best.deletions < c.insertions + c.deletions then c
            else best)
          (dayCommits.headD
            { sha := "", message := "", authorName := "", insertions := 0,
              deletions := 0, filesChanged := 0, committedAt := none })
        [mkAnomaly "daily_burst" "medium"
          (min 100 (40 + (dayCommits.length : ℚ) * (9/2)))
          "Burst activity day"
          (toString dayCommits.length ++ " commits landed on " ++ day ++
            ", far above baseline cadence.")
          (some largest) (some day)]
      else []
    let gaps : List Anomaly := (ordered.zip ordered.tail).flatMap fun pc =>
      let (previous, current) := pc
      let gapDays := ((current.committedAt.map (·.epoch)).getD 0 -
        (previous.committedAt.map (·.epoch)).getD 0).fdiv 86400
      if 14 ≤ gapDays then
        [mkAnomaly "long_gap" (if gapDays < 30 then "low" else "medium")
          (min 100 (20 + (gapDays : ℚ) * (12/10)))
          "Long inactivity gap"
          ("Detected a " ++ toString gapDays ++ "-day delivery gap between commits.")
          (some current) none]
      else []
    let anomalies := stableSort
      (fun a b =>
        decide (severityRank b.severity < severityRank a.severity) ||
        (decide (severityRank b.severity = severityRank a.severity) &&
          decide (b.score ≤ a.score)))
      (perCommit ++ bursts ++ gaps)
    let typeCounter := counterOf (anomalies.map (·.type))
    let highCount := (anomalies.filter (·.severity = "high")).length
    let mediumCount := (anomalies.filter (·.severity = "medium")).length
    let lowCount := (anomalies.filter (·.severity = "low")).length
    let anomalyRate := pyRound
      (((anomalies.length : ℚ) / (max 1 ordered.length : ℕ)) * 100) 2
    let riskIndex := pyRound
      (clampQ ((highCount : ℚ) * 12 + (mediumCount : ℚ) * 6 + (lowCount : ℚ) * 2 +
        anomalyRate * (12/10)) 0 100) 2
    let recommendations :=
      (if 0 < highCount then
        ["Require peer review and regression tests for high-change commits."] else []) ++
      (if 0 < (alistGet typeCounter "off_hours_heavy_change").getD 0 then
        ["Introduce scheduled review windows for off-hours high-risk commits."] else []) ++
      (if 0 < (alistGet typeCounter "wide_surface_area").getD 0 then
        ["Split broad changes into staged pull requests by directory boundary."] else [])
    let recommendations := if recommendations = [] then
        ["No major anomalies detected; keep existing review discipline."]
      else recommendations
    { riskIndex := riskIndex, anomalyCount := anomalies.length,
      anomalyRatePercent := anomalyRate,
      countsByType := (mostCommon typeCounter).map fun tc =>
        { type := tc.1, label := tc.1.replace "_" " ", count := tc.2 },
      highlights := anomalies.take 15,
      recommendedChecks := recommendations }

/-! ## `insight_service.py`: bus-factor shock test -/

/-- One `{name, commits}` row of `contributors_considered`. -/
structure ShockRow where
  name : String
  commits : ℤ
deriving DecidableEq, Repr

/-- One shock scenario. -/
structure ShockScenario where
  removedContributors : List String
  removedCount : ℕ
  coverageLostPercent : ℚ
  coverageRemainingPercent : ℚ
  newBusFactor50Percent : ℕ
  topRemainingSharePercent : ℚ
  resilienceScore : ℚ
  riskTier : String
  recoveryDaysEstimate : ℤ
deriving DecidableEq, Repr

/-- `insights["bus_factor_shock_test"]`; the no-contributor branch omits
`headline`, `top_contributor_share_percent` and `contributors_considered`
(modelled as `none`). -/
structure ShockDoc where
  headline : Option String
  baselineBusFactor50Percent : ℕ
  resilienceScore : ℚ
  singlePointOfFailure : Bool
  topContributorSharePercent : Option ℚ
  contributorsConsidered : Option (List ShockRow)
  scenarios : List ShockScenario
deriving DecidableEq, Repr

/-- `contributor.get("name") or contributor.get("email") or "unknown"`. -/
def contributorLabel (c : RawContributor) : String :=
  (pyOrOptStr c.name (pyOrOptStr c.email none)).getD "unknown"

/-- The empty document returned by `_bus_factor_shock_test` when no
contributor has a positive commit count. -/
def shockEmpty : ShockDoc :=
  { headline := none, baselineBusFactor50Percent := 0, resilienceScore := 0,
    singlePointOfFailure := false, topContributorSharePercent := none,
    contributorsConsidered := none, scenarios := [] }

/-- `InsightService._bus_factor_shock_test` (`topContributors` arrives sorted
by commit count descending from `build_insights`). -/
def busFactorShockTest (topContributors : List RawContributor)
    (totalCommits : ℕ) : ShockDoc :=
  let contributorRows : List ShockRow := topContributors.filterMap fun c =>
    let commitsCount := c.commits.getD 0
    if commitsCount ≤ 0 then none
    else some { name := contributorLabel c, commits := commitsCount }
  if contributorRows = [] then shockEmpty
  else
    let effectiveTotal : ℤ :=
      max (totalCommits : ℤ) ((contributorRows.map (·.commits)).sum)
    let baselineBusFactor := busFactor (contributorRows.map (·.commits))
    let topShare := pyRound
      ((((contributorRows.headD { name := "", commits := 0 }).commits : ℚ) /
        (max 1 effectiveTotal : ℤ)) * 100) 2
    let maxRemovals := min 5 contributorRows.length
    let scenarios : List ShockScenario := (List.range maxRemovals).map fun i =>
      let removedCount := i + 1
      let removed := contributorRows.take removedCount
      let remaining := contributorRows.drop removedCount
      let removedCommits := (removed.map (·.commits)).sum
      let remainingCommits : ℤ := max 0 (effectiveTotal - removedCommits)
      let coverageLost := pyRound
        (((removedCommits : ℚ) / (max 1 effectiveTotal : ℤ)) * 100) 2
      let remainingBusFactor := busFactor (remaining.map (·.commits))
      let topRemainingShare : ℚ :=
        match remaining with
        | r :: _ => pyRound (((r.commits : ℚ) / (max 1 remainingCommits : ℤ)) * 100) 2
        | [] => 100
      let resilienceScore := pyRound
        (clampQ (100 - (coverageLost * (62/100)
          + max 0 (55 - (remainingBusFactor : ℚ) * 14)
          + max 0 (topRemainingShare - 35) * (45/100))) 0 100) 2
      let riskTier :=
        if resilienceScore < 35 then "critical"
        else if resilienceScore < 55 then "high"
        else if resilienceScore < 75 then "moderate"
        else "low"
      let perPersonCapacity : ℚ :=
        if remaining ≠ [] then (remainingCommits : ℚ) / (max 1 remaining.length : ℕ)
        else 0
      let recoveryDays : ℤ :=
        if remaining ≠ [] then
          pyRoundInt (max 2 (((removedCommits : ℚ) / max 1 perPersonCapacity) * 3))
        else 30
      { removedContributors := removed.map (·.name), removedCount := removedCount,
        coverageLostPercent := coverageLost,
        coverageRemainingPercent := pyRound (100 - coverageLost) 2,
        newBusFactor50Percent := remainingBusFactor,
        topRemainingSharePercent := topRemainingShare,
        resilienceScore := resilienceScore, riskTier := riskTier,
        recoveryDaysEstimate := recoveryDays }
    let resilienceBaseline := pyRound
      ((((scenarios.take 3).map (·.resilienceScore)).sum) /
        ((max 1 (min 3 scenarios.length) : ℕ) : ℚ)) 2
    let blankScenario : ShockScenario :=
      { removedContributors := [], removedCount := 0,
        coverageLostPercent := 0, coverageRemainingPercent := 0,
        newBusFactor50Percent := 0, topRemainingSharePercent := 0,
        resilienceScore := 0, riskTier := "", recoveryDaysEstimate := 0 }
    let headline :=
      if scenarios ≠ [] ∧ 75 ≤ (scenarios.headD blankScenario).resilienceScore then
        "Ownership is resilient against contributor loss."
      else "Contributor concentration poses delivery risk under shock scenarios."
    { headline := some headline,
      baselineBusFactor50Percent := baselineBusFactor,
      resilienceScore := resilienceBaseline,
      singlePointOfFailure := 50 ≤ topShare,
      topContributorSharePercent := some topShare,
      contributorsConsidered := some (contributorRows.take 10),
      scenarios := scenarios }

/-! ## `insight_service.py`: engineering weather forecast -/

/-- A signal value is a string (momentum) or a number. -/
inductive SigVal where
  | str (v : String)
  | num (v : ℚ)
deriving DecidableEq, Repr

/-- One `{name, value}` forecast signal. -/
structure SignalEntry where
  name : String
  value : SigVal
deriving DecidableEq, Repr

/-- One projected week. -/
structure ProjectedWeek where
  weekOffset : ℕ
  label : String
  expectedMinCommits : ℤ
  expectedMaxCommits : ℤ
  expectedMidCommits : ℤ
  riskLevel : String
deriving DecidableEq, Repr

/-- `insights["engineering_weather_forecast"]`; the no-data branch omits
`incident_risk_percent` and `expected_review_lag_hours` (modelled `none`). -/
structure ForecastDoc where
  outlook : String
  pressureIndex : ℚ
  confidence : ℚ
  incidentRiskPercent : Option ℚ
  expectedReviewLagHours : Option ℚ
  signals : List SignalEntry
  projectedWeeks : List ProjectedWeek
  forecastSummary : String
deriving DecidableEq, Repr

/-- The no-weekly-data document returned by
`_engineering_weather_forecast`. -/
def forecastEmpty : ForecastDoc :=
  { outlook := "unknown", pressureIndex := 0, confidence := 0,
    incidentRiskPercent := none, expectedReviewLagHours := none,
    signals := [], projectedWeeks := [],
    forecastSummary := "Forecast unavailable: not enough weekly activity data." }

/-- `InsightService._engineering_weather_forecast`.  `sqrt` abstracts
`math.sqrt` (volatility = standard deviation of the recent commit series). -/
def engineeringWeatherForecast (M : MathOps) (digest : DigestDoc)
    (flags : List RiskFlag) (release : ReleaseDoc) (anomaly : AnomalyDoc)
    (health : HealthDoc) : ForecastDoc :=
  let weeks := digest.weeks
  if weeks = [] then forecastEmpty
  else
    let recentWeeks := takeLast weeks 8
    let commitSeries := recentWeeks.map (·.commits)
    let avgCommits : ℚ := ((commitSeries.sum : ℕ) : ℚ) / (max 1 commitSeries.length : ℕ)
    let variance : ℚ := ((commitSeries.map fun v => ((v : ℚ) - avgCommits) ^ 2).sum) /
      (max 1 commitSeries.length : ℕ)
    let volatility := M.sqrt variance
    let volatilityPercent : ℚ := if 0 < avgCommits then volatility / avgCommits * 100 else 0
    let blankWeek : WeekEntry :=
      { week := "", commits := 0, changes := 0, contributors := 0,
        avgChangesPerCommit := 0, nightCommitRatio := 0, refactorCommits := 0 }
    let latest := digest.latest.getD (recentWeeks.getLastD blankWeek)
    let momentum := match digest.trend with
      | some t => t.momentum
      | none => "stable"
    let nightRatio := latest.nightCommitRatio
    let highRiskFlags := (flags.filter (·.severity = "high")).length
    let mediumRiskFlags := (flags.filter (·.severity = "medium")).length
    -- `release_readiness.get("score", health_scorecard.get("overall_score", 0))
    -- or 0`: the `score` key is always present, so the fallback to the health
    -- overall score is dead; `or 0` maps a zero score to itself.
    let readinessScore := pyOrQ release.score health.overallScore 0
    let anomalyRisk := anomaly.riskIndex
    let pressureIndex := pyRound
      (clampQ ((highRiskFlags : ℚ) * 15 + (mediumRiskFlags : ℚ) * 7
        + max 0 (nightRatio - 12) * (8/10) + volatilityPercent * (4/10)
        + max 0 (65 - readinessScore) * (55/100) + anomalyRisk * (25/100)) 0 100) 2
    let outlook :=
      if momentum = "improving" ∧ pressureIndex < 38 then "sunny"
      else if pressureIndex < 62 then "cloudy"
      else "stormy"
    let baseCommits : ℕ := max 1 (if latest.commits = 0 then 1 else latest.commits)
    let slope : ℚ := if outlook = "sunny" then 104/100
      else if outlook = "cloudy" then 99/100 else 93/100
    let spread : ℤ := max 2 (pyRoundInt (max volatility ((baseCommits : ℚ) * (15/100))))
    let projectedWeeks : List ProjectedWeek := (List.range 3).map fun i =>
      let offset := i + 1
      let center : ℤ := max 1 (pyRoundInt ((baseCommits : ℚ) * slope ^ offset))
      { weekOffset := offset, label := "+" ++ toString offset ++ "w",
        expectedMinCommits := max 0 (center - spread),
        expectedMaxCommits := center + spread,
        expectedMidCommits := center,
        riskLevel := if outlook = "stormy" then "high"
          else if outlook = "cloudy" then "medium" else "low" }
    let incidentRisk := pyRound
      (clampQ (pressureIndex * (85/100) + (highRiskFlags : ℚ) * 6) 5 95) 2
    let expectedReviewLagHours := pyRound
      (max 4 (8 + pressureIndex * (18/100) + max 0 (nightRatio - 15) * (5/100))) 1
    let confidence := pyRound
      (clampQ (52 + (recentWeeks.length : ℚ) * 4 - volatilityPercent * (35/100)) 35 95) 2
    let signals : List SignalEntry :=
      [{ name := "Momentum", value := .str momentum },
       { name := "Volatility (%)", value := .num (pyRound volatilityPercent 2) },
       { name := "Night Commit Ratio (%)", value := .num (pyRound nightRatio 2) },
       { name := "Anomaly Risk Index", value := .num (pyRound anomalyRisk 2) },
       { name := "Release Readiness", value := .num (pyRound readinessScore 2) }]
    let summary :=
      if outlook = "sunny" then "Stable trajectory with low operational pressure."
      else if outlook = "cloudy" then
        "Mixed signals; prioritize risk controls while maintaining velocity."
      else "Elevated delivery pressure forecasted; reduce risk before scaling release pace."
    { outlook := outlook, pressureIndex := pressureIndex, confidence := confidence,
      incidentRiskPercent := some incidentRisk,
      expectedReviewLagHours := some expectedReviewLagHours,
      signals := signals, projectedWeeks := projectedWeeks,
      forecastSummary := summary }

/-! ## `insight_service.py`: PR pre-mortem simulator -/

/-- One failure mode. -/
structure FailureMode where
  mode : String
  label : String
  probabilityPercent : ℚ
deriving DecidableEq, Repr

/-- One pre-mortem scenario. -/
structure PMScenario where
  scenarioId : String
  targetPath : String
  directory : String
  riskScore : ℚ
  riskTier : String
  estimatedReviewHours : ℤ
  failureModes : List FailureMode
  mitigations : List String
  suggestedReviewers : List String
deriving DecidableEq, Repr

/-- `insights["pr_pre_mortem"]`. -/
structure PreMortemDoc where
  portfolioRiskScore : ℚ
  highRiskTargets : ℕ
  scenarios : List PMScenario
deriving DecidableEq, Repr

/-- `InsightService._pr_pre_mortem_simulator`. -/
def prPreMortemSimulator (M : MathOps) (blast : BlastDoc)
    (hotspots : List ComplexityItem) (topContributors : List RawContributor)
    (signals : SignalsDoc) : PreMortemDoc :=
  let candidates := blast.candidates.take 8
  let candidates : List BlastCandidate :=
    if candidates = [] ∧ hotspots ≠ [] then
      (hotspots.take 8).map fun item =>
        let cc := item.cyclomaticComplexity.getD 0
        { path := pyStrOpt item.path,
          directory := dirName (pyStrOpt item.path),
          estimatedNeighborFiles := 8, complexity := cc, sizeBytes := 0,
          impactScore := cc * (28/10),
          riskTier := if 18 ≤ cc then "high" else "medium" }
    else candidates
  let reviewers := (topContributors.take 6).filterMap fun item =>
    if 0 < item.commits.getD 0 then some (contributorLabel item) else none
  let reviewers := if reviewers = [] then ["module owner", "tech lead"] else reviewers
  let scenarios : List PMScenario := candidates.enum.map fun p =>
    let (idx, candidate) := p
    let path := candidate.path
    let complexity := candidate.complexity
    let impactScore := candidate.impactScore
    let neighborFiles : ℕ :=
      if candidate.estimatedNeighborFiles = 0 then 1 else candidate.estimatedNeighborFiles
    let sizeBytes := candidate.sizeBytes
    let riskScore := pyRound
      (clampQ (impactScore + complexity * (9/10) +
        M.log2 ((max 2 neighborFiles : ℕ)) * 3) 0 100) 2
    let failureModes : List FailureMode :=
      (if 20 ≤ complexity then
        [{ mode := "branch_logic_regression",
           label := "Branch-heavy logic may regress on edge paths.",
           probabilityPercent := pyRound (clampQ (42 + complexity * (11/10)) 0 95) 2 }]
       else []) ++
      (if 40 ≤ neighborFiles then
        [{ mode := "integration_side_effect",
           label := "Wide module surface increases hidden integration side-effects.",
           probabilityPercent := pyRound (clampQ (35 + (neighborFiles : ℚ) * (6/10)) 0 95) 2 }]
       else []) ++
      (if 250000 ≤ sizeBytes then
        [{ mode := "review_blind_spot",
           label := "Large artifact size can reduce review depth and miss subtle defects.",
           probabilityPercent := pyRound (clampQ (28 + M.log2 ((sizeBytes : ℚ) + 1) * 4) 0 90) 2 }]
       else []) ++
      (if 70 ≤ riskScore then
        [{ mode := "rollback_likelihood",
           label := "High blast-radius score indicates elevated rollback risk.",
           probabilityPercent := pyRound (clampQ (30 + riskScore * (5/10)) 0 95) 2 }]
       else [])
    let failureModes := if failureModes = [] then
        [{ mode := "localized_regression",
           label := "Localized functional regression remains possible.",
           probabilityPercent := pyRound (clampQ (18 + riskScore * (25/100)) 0 70) 2 }]
      else failureModes
    let mitigations :=
      ["Add targeted regression tests for changed interfaces and edge paths.",
       "Assign at least one reviewer with recent ownership in this directory.",
       "Use a small-scope rollout plan with measurable rollback signals."] ++
      (if 70 ≤ riskScore then ["Deploy behind feature flags or staged canary gates."] else []) ++
      (if signals.hasCi then [] else ["Run manual smoke tests until CI coverage is available."])
    let suggestedReviewers := (List.range (min 3 reviewers.length)).map fun offset =>
      reviewers.getD ((idx + offset) % reviewers.length) ""
    { scenarioId := "pm-" ++ toString (idx + 1), targetPath := path,
      directory := candidate.directory, riskScore := riskScore,
      riskTier := candidate.riskTier,
      estimatedReviewHours := pyRoundInt (max 2 (riskScore / 18 + (failureModes.length : ℚ))),
      failureModes := failureModes, mitigations := mitigations.take 5,
      suggestedReviewers := suggestedReviewers }
  { portfolioRiskScore := pyRound
      (((scenarios.map (·.riskScore)).sum) / ((max 1 scenarios.length : ℕ) : ℚ)) 2,
    highRiskTargets := (scenarios.filter fun s => 70 ≤ s.riskScore).length,
    scenarios := scenarios }

/-! ## `insight_service.py`: AI action briefs -/

/-- One action brief. -/
structure Brief where
  priority : String
  title : String
  ownerRole : String
  whyNow : String
  firstSteps : List String
  successMetric : String
  timelineDays : ℕ
deriving DecidableEq, Repr

/-- One `{window, focus}` roadmap slot. -/
structure RoadmapItem where
  window : String
  focus : String
deriving DecidableEq, Repr

/-- `insights["ai_action_briefs"]`.  `generatedAt` is
`datetime.utcnow().isoformat() + "Z"` — the only wall-clock-dependent value
in the whole insights document. -/
structure BriefsDoc where
  generatedAt : String
  topPriority : Option Brief
  briefs : List Brief
  roadmap : List RoadmapItem
  narrative : String
deriving DecidableEq, Repr

/-- `{"P0": 0, "P1": 1, "P2": 2}.get(p, 99)`. -/
def priorityRank (p : String) : ℕ :=
  if p = "P0" then 0 else if p = "P1" then 1 else if p = "P2" then 2 else 99

/-- `InsightService._ai_action_briefs`.  `now` abstracts
`datetime.utcnow().isoformat()`; the source appends `"Z"`. -/
def aiActionBriefs (M : MathOps) (preMortem : PreMortemDoc) (shock : ShockDoc)
    (forecast : ForecastDoc) (anomaly : AnomalyDoc) (release : ReleaseDoc)
    (flags : List RiskFlag) (now : String) : BriefsDoc :=
  let hotspotBriefs : List Brief :=
    match preMortem.scenarios with
    | [] => []
    | s :: _ =>
      if s.targetPath ≠ "" then
        [{ priority := if 80 ≤ s.riskScore then "P0" else "P1",
           title := "Harden hotspot: " ++ s.targetPath,
           ownerRole := "Module owner + QA partner",
           whyNow := "Pre-mortem risk score is " ++ M.fmt (pyRound s.riskScore 2) ++
             " with elevated blast radius.",
           firstSteps :=
             ["Add boundary tests and a rollback validation checklist for this path.",
              "Break upcoming PRs into isolated slices limited to one risk mode.",
              "Gate merge on two approvals including one reviewer outside the primary owner."].take 4,
           successMetric := "Reduce hotspot risk score by >=15 points over the next two runs.",
           timelineDays := 10 }]
      else []
  let weakestShock : Option ShockScenario :=
    match shock.scenarios with
    | [] => none
    | s :: rest => some (rest.foldl
        (fun best x => if x.resilienceScore < best.resilienceScore then x else best) s)
  let shockBriefs : List Brief :=
    match weakestShock with
    | none => []
    | some w =>
      let removed := pyOrStr
        (String.intercalate ", " (w.removedContributors.take 2)) "core owners"
      [{ priority := if w.resilienceScore < 45 then "P0" else "P1",
         title := "Reduce ownership concentration risk",
         ownerRole := "Engineering manager + tech leads",
         whyNow := "Shock test drops resilience to " ++
           M.fmt (pyRound w.resilienceScore 2) ++ " when " ++ removed ++
           " are unavailable.",
         firstSteps :=
           ["Create a two-week ownership rotation for top two critical directories.",
            "Require shadow reviewers from a second team on high-risk PRs.",
            "Document runbooks for the top three blast-radius modules."].take 4,
         successMetric := "Increase shock-test resilience score to >=65 in the next analysis cycle.",
         timelineDays := 14 }]
  let anomalyBriefs : List Brief :=
    if 35 ≤ anomaly.riskIndex then
      [{ priority := "P1", title := "Normalize anomalous delivery patterns",
         ownerRole := "Release captain",
         whyNow := "Anomaly risk index is " ++ M.fmt (pyRound anomaly.riskIndex 2) ++
           " with unusual commit patterns.",
         firstSteps :=
           ["Flag mega-commit and wide-surface changes for synchronous review before merge.",
            "Add PR template checks for off-hours high-change submissions.",
            "Run weekly anomaly review in sprint quality sync."].take 4,
         successMetric := "Cut anomaly rate by 30% while maintaining weekly throughput.",
         timelineDays := 7 }]
    else []
  let forecastBriefs : List Brief :=
    if forecast.outlook = "cloudy" ∨ forecast.outlook = "stormy" then
      [{ priority := if forecast.outlook = "cloudy" then "P1" else "P0",
         title := "Stabilize delivery weather", ownerRole := "Tech lead",
         whyNow := "Forecast outlook is " ++ forecast.outlook.toUpper ++
           " with pressure index " ++ M.fmt (pyRound forecast.pressureIndex 2) ++ ".",
         firstSteps :=
           ["Limit concurrent high-risk changes per sprint lane.",
            "Allocate explicit time for debt and test reinforcement in next iteration.",
            "Track review lag and incident risk as release guardrails."].take 4,
         successMetric := "Move forecast outlook to SUNNY/CLOUDY with pressure index <45.",
         timelineDays := 10 }]
    else []
  let highRiskFlagMessages := (flags.filter (·.severity = "high")).map (·.message)
  let readinessBriefs : List Brief :=
    if release.score < 80 ∨ highRiskFlagMessages ≠ [] then
      [{ priority := if 65 ≤ release.score then "P1" else "P0",
         title := "Raise release confidence", ownerRole := "Release manager",
         whyNow := "Release readiness score is " ++ M.fmt (pyRound release.score 2) ++
           " and needs hardening.",
         firstSteps :=
           ["Close failing release gates and unresolved high-severity risk flags.",
            "Add a pre-release dry run with rollback rehearsal.",
            "Publish a release checklist owned by cross-functional reviewers."].take 4,
         successMetric := "Improve readiness score to >=85 with zero failing gates.",
         timelineDays := 14 }]
    else []
  let briefs := hotspotBriefs ++ shockBriefs ++ anomalyBriefs ++
    forecastBriefs ++ readinessBriefs
  let briefs : List Brief := if briefs = [] then
      [{ priority := "P2", title := "Keep healthy engineering cadence",
         ownerRole := "Team leads",
         whyNow := "Current indicators are stable; preserve reliability as velocity scales.",
         firstSteps :=
           ["Continue weekly quality and ownership reviews.",
            "Monitor hotspot score drift and forecast pressure.",
            "Capture learnings from major PRs in lightweight runbooks."].take 4,
         successMetric := "Maintain health and readiness scores above 80.",
         timelineDays := 14 }]
    else briefs
  let briefs := (sortByKeyAsc (fun b => ((priorityRank b.priority : ℕ) : ℚ)) briefs).take 6
  let topPriority := briefs.head?
  let roadmap : List RoadmapItem :=
    [{ window := "Days 1-3",
       focus := ((briefs.get? 0).map (·.title)).getD "Stabilize top risk" },
     { window := "Days 4-7",
       focus := ((briefs.get? 1).map (·.title)).getD "Improve ownership resilience" },
     { window := "Week 2",
       focus := ((briefs.get? 2).map (·.title)).getD "Lift readiness score" }]
  let narrative := match topPriority with
    | some t => "Top action: " ++ t.title ++ " (" ++ t.priority ++ ")"
    | none => "No action briefs available."
  { generatedAt := now ++ "Z", topPriority := topPriority, briefs := briefs,
    roadmap := roadmap, narrative := narrative }

/-! ## `insight_service.py`: the assembled document -/

/-- The full insights document returned by `build_insights`. -/
structure Insights where
  summary : SummaryDoc
  developmentHabits : HabitsDoc
  teamDynamics : TeamDoc
  commitBehavior : CommitBehaviorDoc
  refactorSignals : RefactorDoc
  languageProfile : LanguageProfileDoc
  complexityProfile : ComplexityProfileDoc
  repositoryStructure : StructureDoc
  engineeringSignals : SignalsDoc
  riskFlags : List RiskFlag
  insightQuality : QualityDoc
  timeMachine : TimeMachineDoc
  blastRadius : BlastDoc
  healthScorecard : HealthDoc
  repoFingerprint : FingerprintDoc
  collaborationStory : CollabDoc
  weeklyHealthDigest : DigestDoc
  releaseReadiness : ReleaseDoc
  repoArchetypes : ArchetypesDoc
  prPreMortem : PreMortemDoc
  busFactorShockTest : ShockDoc
  engineeringWeatherForecast : ForecastDoc
  anomalyDetective : AnomalyDoc
  aiActionBriefs : BriefsDoc
  executiveSummary : List String
deriving DecidableEq, Repr

/-- `InsightService._executive_summary`.  The sub-documents it references are
always non-empty dicts, so the source's truthiness guards on them are
constantly true; the two data-dependent guards (`top_priority`,
`hotspots`) are kept. -/
def executiveSummary (M : MathOps) (summary : SummaryDoc) (habits : HabitsDoc)
    (team : TeamDoc) (complexity : ComplexityProfileDoc) (structureDoc : StructureDoc)
    (quality : QualityDoc) (collaboration : CollabDoc) (readiness : ReleaseDoc)
    (shock : ShockDoc) (forecast : ForecastDoc) (anomalies : AnomalyDoc)
    (actionBriefs : BriefsDoc) : List String :=
  ["Analyzed " ++ toString summary.totalCommitsAnalyzed ++ " commits across " ++
     toString summary.totalContributors ++ " contributors.",
   "Top contributor owns " ++ M.fmt team.topContributorCommitSharePercent ++
     "% of commits; bus factor(50%) is " ++ toString team.busFactor50Percent ++ ".",
   "Night-time commit ratio is " ++ M.fmt habits.nightCommitRatio ++
     "%, revealing delivery-window habits.",
   "Detected " ++ toString complexity.highRiskFileCount ++
     " high-risk files by cyclomatic complexity.",
   "Repository shape: " ++ toString structureDoc.totalFiles ++ " files across " ++
     toString structureDoc.totalDirectories ++ " directories (depth " ++
     toString structureDoc.maxDepth ++ ").",
   "Insight confidence score: " ++ toString quality.confidenceScore ++ "/100.",
   "Release readiness is " ++ M.fmt readiness.score ++ "/100 (" ++
     readiness.tier.toUpper ++ ").",
   "Collaboration index is " ++ M.fmt collaboration.collaborationIndex ++ " with " ++
     toString collaboration.metrics.handoffEvents ++ " cross-author handoffs.",
   "Bus-factor shock resilience is " ++ M.fmt shock.resilienceScore ++
     " with top-share concentration at " ++
     (match shock.topContributorSharePercent with
      | some q => M.fmt q
      | none => "0") ++ "%.",
   "Engineering weather outlook is " ++ forecast.outlook.toUpper ++
     " (pressure index " ++ M.fmt forecast.pressureIndex ++ ").",
   "Anomaly detective flagged " ++ toString anomalies.anomalyCount ++
     " events (risk index " ++ M.fmt anomalies.riskIndex ++ ")."] ++
  (match actionBriefs.topPriority with
   | some t => ["Top recommended action: " ++ t.title ++ "."]
   | none => []) ++
  (match complexity.hotspots with
   | h :: _ =>
     ["Top hotspot: " ++ pyStrOpt h.1 ++ " (complexity=" ++
       (match h.2 with
        | some q => M.fmt q
        | none => "None") ++ ")."]
   | [] => [])

/-- `InsightService.build_insights`: the pure core of the deterministic
insight engine.  `now` abstracts the single `datetime.utcnow()` read inside
`_ai_action_briefs`; everything else depends only on the inputs. -/
def buildInsights (M : MathOps) (commits : List RawCommit)
    (contributors : List RawContributor) (complexityMetrics : List ComplexityItem)
    (hotspots : List ComplexityItem) (languageStats : List (String × ℕ))
    (fileTree : Option FileNode) (now : String) : Insights :=
  let parsedCommits := commits.map normalizeCommit
  let commitSizes := parsedCommits.map fun c => c.insertions + c.deletions
  let commitSizesSorted := stableSort (fun a b => decide (a ≤ b)) commitSizes
  let totalCommits := parsedCommits.length
  let totalChanges := commitSizes.sum
  let datedCommits := parsedCommits.filterMap fun c =>
    c.committedAt.map fun dt => (c, dt)
  let hourly := counterOf (datedCommits.map fun p => p.2.hour)
  let weekday := counterOf (datedCommits.map fun p => p.2.weekdayName)
  let nightCommits := (datedCommits.filter fun p => p.2.hour < 6).length
  let refactorCandidates := parsedCommits.filter fun c => isRefactorMessage c.message
  let topContributors := sortByKeyDesc (fun c => ((c.commits.getD 0 : ℤ) : ℚ)) contributors
  let contributorCommitCounts := topContributors.map fun c => c.commits.getD 0
  let busFactorVal := busFactor contributorCommitCounts
  let complexityValues := complexityMetrics.filterMap (·.cyclomaticComplexity)
  let highRiskCount := (complexityMetrics.filter fun i =>
    15 ≤ i.cyclomaticComplexity.getD 0).length
  let flat := flattenFileTree fileTree
  let flatFiles := flat.1
  let directoryCount := flat.2.1
  let maxDepth := flat.2.2
  let totalFileSize := (flatFiles.map (·.sizeInt)).sum
  let topLargeFiles := (sortByKeyDesc (fun f => (f.sizeInt : ℚ)) flatFiles).take 10
  let signals := engineeringSignals flatFiles
  let flags := riskFlags totalCommits busFactorVal highRiskCount signals
  let timeMachine := buildTimeMachine parsedCommits
  let blastRadius := buildBlastRadius M flatFiles hotspots complexityMetrics
  let health := healthScorecard M totalCommits busFactorVal highRiskCount signals
    languageStats complexityMetrics.length flatFiles.length
  let nightRatio : ℚ := if totalCommits ≠ 0 then
    pyRound (((nightCommits : ℚ) / (totalCommits : ℚ)) * 100) 2 else 0
  let fingerprint := repoFingerprint signals nightRatio health.overallScore languageStats
  let collaboration := collaborationStory M parsedCommits
  let weeklyDigest := weeklyHealthDigest M parsedCommits
  let release := releaseReadiness M health flags signals busFactorVal highRiskCount
  let avgChanges : ℚ := if totalCommits ≠ 0 then
    pyRound ((totalChanges : ℚ) / (totalCommits : ℚ)) 2 else 0
  let topShare : ℚ := if totalCommits ≠ 0 ∧ contributorCommitCounts ≠ [] then
    pyRound (((contributorCommitCounts.headD 0 : ℚ) / (totalCommits : ℚ)) * 100) 2
    else 0
  let archetypes := repoArchetypes health signals nightRatio totalCommits
    avgChanges topShare highRiskCount
  let anomaly := anomalyDetective parsedCommits
  let shock := busFactorShockTest topContributors totalCommits
  let forecast := engineeringWeatherForecast M weeklyDigest flags release anomaly health
  let preMortem := prPreMortemSimulator M blastRadius hotspots topContributors signals
  let briefs := aiActionBriefs M preMortem shock forecast anomaly release flags now
  let summary : SummaryDoc :=
    { totalCommitsAnalyzed := totalCommits, totalContributors := contributors.length,
      totalCodeChanges := totalChanges, avgChangesPerCommit := avgChanges }
  let habits : HabitsDoc :=
    { nightCommitRatio := nightRatio,
      mostActiveHours := (mostCommon hourly).take 5,
      mostActiveWeekdays := mostCommon weekday }
  let team : TeamDoc :=
    { topContributors := (topContributors.take 5).map fun c =>
        { name := pyOrOptStr c.name c.email, commits := c.commits.getD 0 },
      busFactor50Percent := busFactorVal,
      topContributorCommitSharePercent := topShare }
  let commitBehavior : CommitBehaviorDoc :=
    { medianChangesPerCommit := if commitSizesSorted ≠ [] then
        pyRound (pyMedian (commitSizesSorted.map fun z => (z : ℚ))) 2 else 0,
      p90ChangesPerCommit := percentile commitSizesSorted 90,
      largestCommits := ((sortByKeyDesc
          (fun c => ((c.insertions + c.deletions : ℤ) : ℚ)) parsedCommits).take 5).map
        fun c =>
          { sha := strTake c.sha 10, author := c.authorName,
            changes := c.insertions + c.deletions,
            message := strTake c.message 120 } }
  let refactorDoc : RefactorDoc :=
    { keywordDetectedRefactors := refactorCandidates.length,
      examples := (refactorCandidates.take 10).map fun c =>
        { sha := strTake c.sha 10, author := c.authorName,
          message := strTake c.message 160 } }
  let languageProfile : LanguageProfileDoc :=
    { languages := rankLanguages languageStats,
      dominantLanguage := argmaxFirst languageStats,
      languageDiversityIndex := shannonDiversity M languageStats }
  let complexityProfile : ComplexityProfileDoc :=
    { filesScanned := complexityMetrics.length,
      avgCyclomaticComplexity := if complexityValues ≠ [] then
        pyRound (complexityValues.sum / (complexityValues.length : ℚ)) 2 else 0,
      highRiskFileCount := highRiskCount,
      hotspots := (hotspots.take 10).map fun h => (h.path, h.cyclomaticComplexity) }
  let structureDoc : StructureDoc :=
    { totalFiles := flatFiles.length, totalDirectories := directoryCount,
      maxDepth := maxDepth, totalSizeBytes := totalFileSize,
      largestFiles := topLargeFiles.map fun f => (f.path, f.sizeInt),
      sizeDistribution := sizeDistribution flatFiles }
  let quality := insightQuality totalCommits flatFiles.length complexityMetrics.length
  { summary := summary, developmentHabits := habits, teamDynamics := team,
    commitBehavior := commitBehavior, refactorSignals := refactorDoc,
    languageProfile := languageProfile, complexityProfile := complexityProfile,
    repositoryStructure := structureDoc, engineeringSignals := signals,
    riskFlags := flags, insightQuality := quality, timeMachine := timeMachine,
    blastRadius := blastRadius, healthScorecard := health,
    repoFingerprint := fingerprint, collaborationStory := collaboration,
    weeklyHealthDigest := weeklyDigest, releaseReadiness := release,
    repoArchetypes := archetypes, prPreMortem := preMortem,
    busFactorShockTest := shock, engineeringWeatherForecast := forecast,
    anomalyDetective := anomaly, aiActionBriefs := briefs,
    executiveSummary := executiveSummary M summary habits team complexityProfile
      structureDoc quality collaboration release shock forecast anomaly briefs }

/-! ## Auxiliary definitions used by the verification statements -/

/-- Overwrite `ai_action_briefs.generated_at` (used to compare two
`build_insights` runs modulo the embedded wall-clock timestamp). -/
def Insights.withGeneratedAt (i : Insights) (ts : String) : Insights :=
  { i with aiActionBriefs := { i.aiActionBriefs with generatedAt := ts } }

/-- A concrete interpretation of the abstracted math/format functions, used
for closed counterexamples (their values never matter). -/
def mathOpsZero : MathOps :=
  { log := fun _ => 0, log2 := fun _ => 0, sqrt := fun _ => 0, fmt := fun _ => "" }

/-- Run a sequence of calls that all fail, from a given breaker state
(`times` are the `time.time()` values of the calls). -/
def failRun (times : List ℤ) (b : CircuitBreaker) : CircuitBreaker :=
  times.foldl (fun b t => (b.call t false).2) b

/-- A two-commit git history (newest first) for concrete witnesses. -/
def sampleRepoCommits : List RawGitCommit :=
  [{ sha := "a", message := "m1", authorName := "x", authorEmail := "e",
     committedDate := 100, stats := { files := 3, insertions := 7, deletions := 2 } },
   { sha := "b", message := "m2", authorName := "y", authorEmail := "f",
     committedDate := 50, stats := { files := 1, insertions := 4, deletions := 5 } }]

/-- The output entry `get_commits` produces at index 1 of
`sampleRepoCommits` with a stats limit of 1 (zeroed statistics). -/
def sampleCommitOut1 : CommitOut :=
  { sha := "b", message := "m2", authorName := "y", authorEmail := "f",
    committedAt := 50, stats := { files := 0, insertions := 0, deletions := 0 } }

/-- A Python source file on disk, optionally failing analysis. -/
def samplePyFile (name : String) (ok : Bool) : ScanFile :=
  { name := name, ext := ".py", analysisOk := ok }

/-! ## Helper lemmas -/

/-- The loop counter only grows in `_bus_factor`'s accumulation loop. -/
theorem busFactor_go_ge (total : ℤ) :
    ∀ (l : List ℤ) (running : ℤ) (people : ℕ),
      people ≤ busFactor.go total l running people := by
  intro l
  induction l with
  | nil => intro running people; simp [busFactor.go]
  | cons c rest ih =>
    intro running people
    simp only [busFactor.go]
    split
    · exact Nat.le_succ _
    · exact Nat.le_trans (Nat.le_succ _) (ih _ _)

/-- The loop adds at most one person per list entry. -/
theorem busFactor_go_le (total : ℤ) :
    ∀ (l : List ℤ) (running : ℤ) (people : ℕ),
      busFactor.go total l running people ≤ people + l.length := by
  intro l
  induction l with
  | nil => intro running people; simp [busFactor.go]
  | cons c rest ih =>
    intro running people
    simp only [busFactor.go]
    split
    · simp
    · calc busFactor.go total rest (running + c) (people + 1)
          ≤ (people + 1) + rest.length := ih _ _
        _ = people + (c :: rest).length := by simp; omega

/-- The float comparison `running / total >= 0.5` of `_bus_factor`, in exact
integer form. -/
theorem half_le_iff (total a : ℤ) (ht : 0 < total) :
    ((a : ℚ) / (total : ℚ) ≥ 1/2) ↔ total ≤ 2 * a := by
  rw [ge_iff_le, le_div_iff₀ (by exact_mod_cast ht)]
  constructor
  · intro h
    have h2 : (total : ℚ) ≤ 2 * (a : ℚ) := by linarith
    exact_mod_cast h2
  · intro h
    have h2 : (total : ℚ) ≤ 2 * (a : ℚ) := by exact_mod_cast h
    linarith

/-- When the whole list reaches the threshold, the prefix the loop selects
reaches it as well. -/
theorem busFactor_go_reach (total : ℤ) (ht : 0 < total) :
    ∀ (l : List ℤ) (running : ℤ) (people : ℕ),
      total ≤ 2 * (running + l.sum) →
      total ≤ 2 * (running + (l.take (busFactor.go total l running people - people)).sum) := by
  intro l
  induction l with
  | nil => intro running people h; simpa using h
  | cons c rest ih =>
    intro running people h
    simp only [busFactor.go]
    split
    · rename_i hcond
      have h1 : total ≤ 2 * (running + c) := (half_le_iff total (running + c) ht).mp hcond
      have h2 : people + 1 - people = 1 := by omega
      simpa [h2] using h1
    · rename_i hcond
      have harith : total ≤ 2 * ((running + c) + rest.sum) := by
        have h3 : running + (c :: rest).sum = (running + c) + rest.sum := by
          simp [List.sum_cons]; ring
        rw [h3] at h; exact h
      have h4 := ih (running + c) (people + 1) harith
      have hge := busFactor_go_ge total rest (running + c) (people + 1)
      have hk : busFactor.go total rest (running + c) (people + 1) - people =
          (busFactor.go total rest (running + c) (people + 1) - (people + 1)) + 1 := by
        omega
      rw [hk, List.take_succ_cons]
      simp only [List.sum_cons]
      have h5 : running + (c + (rest.take (busFactor.go total rest (running + c)
          (people + 1) - (people + 1))).sum) = (running + c) + (rest.take
          (busFactor.go total rest (running + c) (people + 1) - (people + 1))).sum := by
        ring
      rw [h5]
      exact h4

/-- No strictly shorter prefix than the one the loop selects reaches the
threshold. -/
theorem busFactor_go_min (total : ℤ) (ht : 0 < total) :
    ∀ (l : List ℤ) (running : ℤ) (people : ℕ),
      2 * running < total →
      ∀ j, j < busFactor.go total l running people - people →
        2 * (running + (l.take j).sum) < total := by
  intro l
  induction l with
  | nil =>
    intro running people _ j hj
    simp [busFactor.go] at hj
  | cons c rest ih =>
    intro running people h0 j hj
    simp only [busFactor.go] at hj
    split at hj
    · rename_i hcond
      have hj0 : j = 0 := by omega
      subst hj0
      simpa using h0
    · rename_i hcond
      have hlt : 2 * (running + c) < total := by
        have := (not_iff_not.mpr (half_le_iff total (running + c) ht)).mp hcond
        omega
      match j with
      | 0 => simpa using h0
      | j + 1 =>
        have hj2 : j < busFactor.go total rest (running + c) (people + 1) - (people + 1) := by
          omega
        have h6 := ih (running + c) (people + 1) hlt j hj2
        rw [List.take_succ_cons]
        simp only [List.sum_cons]
        have h5 : running + (c + (rest.take j).sum) = (running + c) + (rest.take j).sum := by
          ring
        rw [h5]
        exact h6

/-- A conditional singleton is a sublist of the singleton. -/
theorem ite_singleton_sublist (c : Prop) [Decidable c] (x : α) :
    (if c then [x] else []).Sublist [x] := by
  split
  · exact List.Sublist.refl _
  · exact List.nil_sublist _

/-- `call` while the circuit is open with no recorded failure time (a state
unreachable from `init`): the model rejects. -/
theorem call_open_none {b : CircuitBreaker} (now : ℤ) (f : Bool)
    (h1 : b.state = .opened) (h2 : b.lastFailureTime = none) :
    b.call now f = (.rejected, b) := by
  simp [CircuitBreaker.call, h1, h2]

/-- `call` while open and inside the cooldown window rejects without running
the wrapped function. -/
theorem call_open_wait {b : CircuitBreaker} {now t : ℤ} (f : Bool)
    (h1 : b.state = .opened) (h2 : b.lastFailureTime = some t)
    (h3 : now - t < b.timeout) :
    b.call now f = (.rejected, b) := by
  simp [CircuitBreaker.call, h1, h2, not_le.mpr h3]

/-- `call` after the cooldown: a successful probe goes through `_on_success`
from the half-open state. -/
theorem call_open_probe_success {b : CircuitBreaker} {now t : ℤ}
    (h1 : b.state = .opened) (h2 : b.lastFailureTime = some t)
    (h3 : b.timeout ≤ now - t) :
    b.call now true =
      (.succeeded, ({ b with state := CircuitState.halfOpen }).onSuccess) := by
  simp [CircuitBreaker.call, h1, h2, h3]

/-- `call` after the cooldown: a failing probe goes through `_on_failure`
from the half-open state. -/
theorem call_open_probe_failure {b : CircuitBreaker} {now t : ℤ}
    (h1 : b.state = .opened) (h2 : b.lastFailureTime = some t)
    (h3 : b.timeout ≤ now - t) :
    b.call now false =
      (.raised, ({ b with state := CircuitState.halfOpen }).onFailure now) := by
  simp [CircuitBreaker.call, h1, h2, h3]

/-- `call` in a non-open state runs the wrapped function; success path. -/
theorem call_notOpen_success {b : CircuitBreaker} (now : ℤ)
    (h : b.state ≠ .opened) :
    b.call now true = (.succeeded, b.onSuccess) := by
  simp [CircuitBreaker.call, h]

/-- `call` in a non-open state runs the wrapped function; failure path. -/
theorem call_notOpen_failure {b : CircuitBreaker} (now : ℤ)
    (h : b.state ≠ .opened) :
    b.call now false = (.raised, b.onFailure now) := by
  simp [CircuitBreaker.call, h]

/-- A run of consecutive failures from a closed breaker, staying within the
threshold: the count accumulates and the state opens exactly on reaching the
threshold. -/
theorem failRun_closed : ∀ (times : List ℤ) (b : CircuitBreaker),
    b.state = .closed →
    b.failureCount + times.length ≤ b.failureThreshold →
    b.failureCount < b.failureThreshold →
    (failRun times b).failureCount = b.failureCount + times.length ∧
    (failRun times b).failureThreshold = b.failureThreshold ∧
    (failRun times b).state =
      (if b.failureThreshold ≤ b.failureCount + times.length then
        CircuitState.opened else CircuitState.closed) := by
  intro times
  induction times with
  | nil =>
    intro b hs hle hlt
    refine ⟨by simp [failRun], by simp [failRun], ?_⟩
    simp only [failRun, List.foldl_nil, List.length_nil, Nat.add_zero]
    rw [if_neg (by omega)]
    exact hs
  | cons t rest ih =>
    intro b hs hle hlt
    have hcall : (b.call t false).2 = b.onFailure t := by
      simp [CircuitBreaker.call, hs]
    have hfr : failRun (t :: rest) b = failRun rest (b.onFailure t) := by
      simp [failRun, hcall]
    by_cases hth : b.failureThreshold ≤ b.failureCount + 1
    · have hrest : rest = [] := by
        have h7 := hle
        simp only [List.length_cons] at h7
        have h8 : rest.length = 0 := by omega
        exact List.length_eq_zero.mp h8
      subst hrest
      rw [hfr]
      refine ⟨?_, ?_, ?_⟩
      · simp [failRun, CircuitBreaker.onFailure]
      · simp [failRun, CircuitBreaker.onFailure]
      · simp only [failRun, List.foldl_nil, CircuitBreaker.onFailure]
        rw [if_pos hth]
        simp only [List.length_cons]
        rw [if_pos (by omega)]
    · have hb' : (b.onFailure t).state = .closed := by
        simp only [CircuitBreaker.onFailure]
        rw [if_neg hth]
        exact hs
      have hcount : (b.onFailure t).failureCount = b.failureCount + 1 := by
        simp [CircuitBreaker.onFailure]
      have hthr : (b.onFailure t).failureThreshold = b.failureThreshold := by
        simp [CircuitBreaker.onFailure]
      rw [hfr]
      have hle' : (b.onFailure t).failureCount + rest.length ≤
          (b.onFailure t).failureThreshold := by
        rw [hcount, hthr]
        simp only [List.length_cons] at hle
        omega
      have hlt' : (b.onFailure t).failureCount < (b.onFailure t).failureThreshold := by
        rw [hcount, hthr]; omega
      obtain ⟨ih1, ih2, ih3⟩ := ih (b.onFailure t) hb' hle' hlt'
      refine ⟨?_, ?_, ?_⟩
      · rw [ih1, hcount]; simp only [List.length_cons]; omega
      · rw [ih2, hthr]
      · rw [ih3, hcount, hthr]
        simp only [List.length_cons]
        by_cases h2 : b.failureThreshold ≤ b.failureCount + 1 + rest.length
        · rw [if_pos h2, if_pos (by omega)]
        · rw [if_neg h2, if_neg (by omega)]

/-- One call preserves the open-state invariant (threshold reached and a
failure time recorded), or leaves an already-open breaker untouched. -/
theorem call_opened_invariant (b : CircuitBreaker) (now : ℤ) (f : Bool)
    (h : ((b.call now f).2).state = .opened) :
    ((b.call now f).2.failureThreshold ≤ (b.call now f).2.failureCount ∧
      (b.call now f).2.lastFailureTime ≠ none) ∨
    ((b.call now f).2 = b ∧ b.state = .opened) := by
  by_cases hop : b.state = .opened
  · match hlast : b.lastFailureTime with
    | none =>
      rw [call_open_none now f hop hlast]
      exact Or.inr ⟨rfl, hop⟩
    | some t =>
      by_cases hcool : b.timeout ≤ now - t
      · cases f with
        | true =>
          rw [call_open_probe_success hop hlast hcool] at h
          exfalso
          simp [CircuitBreaker.onSuccess] at h
        | false =>
          rw [call_open_probe_failure hop hlast hcool] at h ⊢
          left
          refine ⟨?_, by simp [CircuitBreaker.onFailure]⟩
          simp only [CircuitBreaker.onFailure] at h ⊢
          split at h
          · rename_i hth; simpa using hth
          · simp at h
      · rw [call_open_wait f hop hlast (by omega)]
        exact Or.inr ⟨rfl, hop⟩
  · cases f with
    | true =>
      rw [call_notOpen_success now hop] at h
      exfalso
      simp only [CircuitBreaker.onSuccess] at h
      split at h
      · simp at h
      · exact hop h
    | false =>
      rw [call_notOpen_failure now hop] at h ⊢
      left
      refine ⟨?_, by simp [CircuitBreaker.onFailure]⟩
      simp only [CircuitBreaker.onFailure] at h ⊢
      split at h
      · rename_i hth; simpa using hth
      · exact absurd h hop

/-- Every breaker reachable from `init` that is open has reached its failure
threshold and carries a recorded failure time. -/
theorem reachable_opened_invariant :
    ∀ (b : CircuitBreaker), b.Reachable →
      b.state = .opened →
      b.failureThreshold ≤ b.failureCount ∧ b.lastFailureTime ≠ none := by
  intro b hr
  induction hr with
  | init th tmo => intro h; simp [CircuitBreaker.init] at h
  | step now f hr ih =>
    intro h
    rcases call_opened_invariant _ now f h with h1 | ⟨heq, hopen⟩
    · exact h1
    · rw [heq]
      exact ih hopen

/-- The scan never collects more entries than the cap. -/
theorem scanLoop_length_le (maxFiles : ℕ) :
    ∀ (l : List ScanFile) (scanned : ℕ) (acc : List ScanFile),
      acc.length ≤ scanned → scanned ≤ maxFiles →
      (scanLoop maxFiles l scanned acc).length ≤ maxFiles := by
  intro l
  induction l with
  | nil => intro scanned acc h1 h2; simpa [scanLoop] using le_trans h1 h2
  | cons f rest ih =>
    intro scanned acc h1 h2
    rw [scanLoop]
    split
    · exact le_trans h1 h2
    · rename_i hover
      split
      · refine ih (scanned + 1) _ ?_ (by omega)
        split <;>
          simp only [List.length_append, List.length_cons, List.length_nil] <;> omega
      · exact ih scanned acc h1 h2

/-- When the walk holds more recognized files than the remaining budget and
every recognized file analyzes successfully, the scan fills the cap
exactly. -/
theorem scanLoop_length_eq (maxFiles : ℕ) :
    ∀ (l : List ScanFile) (scanned : ℕ) (acc : List ScanFile),
      acc.length = scanned → scanned ≤ maxFiles →
      maxFiles - scanned < (l.filter (fun f => f.ext ∈ SUPPORTED_EXTENSIONS)).length →
      (∀ f ∈ l, f.ext ∈ SUPPORTED_EXTENSIONS → f.analysisOk = true) →
      (scanLoop maxFiles l scanned acc).length = maxFiles := by
  intro l
  induction l with
  | nil =>
    intro scanned acc h1 h2 h3 h4
    simp at h3
  | cons f rest ih =>
    intro scanned acc h1 h2 h3 h4
    rw [scanLoop]
    split
    · omega
    · rename_i hover
      by_cases hrec : f.ext ∈ SUPPORTED_EXTENSIONS
      · rw [if_pos hrec]
        have hok : f.analysisOk = true := h4 f (by simp) hrec
        refine ih (scanned + 1) _ ?_ (by omega) ?_ ?_
        · rw [hok]; simp; omega
        · have h5 : ((f :: rest).filter (fun f => f.ext ∈ SUPPORTED_EXTENSIONS)).length =
              (rest.filter (fun f => f.ext ∈ SUPPORTED_EXTENSIONS)).length + 1 := by
            simp [List.filter_cons, hrec]
          omega
        · intro g hg hgrec; exact h4 g (by simp [hg]) hgrec
      · rw [if_neg hrec]
        refine ih scanned acc h1 h2 ?_ ?_
        · have h5 : ((f :: rest).filter (fun f => f.ext ∈ SUPPORTED_EXTENSIONS)).length =
              (rest.filter (fun f => f.ext ∈ SUPPORTED_EXTENSIONS)).length := by
            simp [List.filter_cons, hrec]
          omega
        · intro g hg hgrec; exact h4 g (by simp [hg]) hgrec

/-- Index-wise view of `map f (enum (take n l))`. -/
theorem mapEnumTake_getElem {α β : Type} (l : List α) (g : ℕ × α → β) (n i : ℕ)
    (b : β) (h : ((l.take n).enum.map g)[i]? = some b) :
    ∃ a, l[i]? = some a ∧ b = g (i, a) := by
  rw [List.getElem?_map, List.getElem?_enum] at h
  cases htake : (l.take n)[i]? with
  | none => rw [htake] at h; simp at h
  | some a =>
    rw [htake] at h
    simp only [Option.map_some', Option.some.injEq] at h
    refine ⟨a, ?_, h.symm⟩
    have hlt : i < n := by
      by_contra hge
      rw [List.getElem?_take_eq_none (by omega)] at htake
      exact Option.noConfusion htake
    rw [← List.getElem?_take_of_lt hlt]
    exact htake

/-! ## Claim theorems -/

/-- Claim C1, counterexample: `build_insights` is NOT byte-identical across
two runs with identical inputs — `_ai_action_briefs` stamps the output with
`datetime.utcnow()`, so two calls at different wall-clock instants differ in
`ai_action_briefs.generated_at`. -/
theorem buildInsights_two_runs_differ :
    buildInsights mathOpsZero [] [] [] [] [] none "2024-01-01T00:00:00" ≠
      buildInsights mathOpsZero [] [] [] [] [] none "2024-01-01T00:00:01" := by
  intro h
  have h2 : (buildInsights mathOpsZero [] [] [] [] [] none
        "2024-01-01T00:00:00").aiActionBriefs.generatedAt =
      (buildInsights mathOpsZero [] [] [] [] [] none
        "2024-01-01T00:00:01").aiActionBriefs.generatedAt :=
    congrArg (fun i => i.aiActionBriefs.generatedAt) h
  have hA : (buildInsights mathOpsZero [] [] [] [] [] none
      "2024-01-01T00:00:00").aiActionBriefs.generatedAt = "2024-01-01T00:00:00Z" := rfl
  have hB : (buildInsights mathOpsZero [] [] [] [] [] none
      "2024-01-01T00:00:01").aiActionBriefs.generatedAt = "2024-01-01T00:00:01Z" := rfl
  rw [hA, hB] at h2
  exact absurd h2 (by decide)

set_option maxHeartbeats 2000000 in
/-- Claim C1, amended: `build_insights` is deterministic in its inputs
except for `ai_action_briefs.generated_at`, which records the wall clock at
call time (`datetime.utcnow()` in `_ai_action_briefs`); with that one field
normalized, two runs over identical inputs produce identical documents for
every clock reading and every interpretation of the math/format
primitives. -/
theorem buildInsights_deterministic_modulo_generated_at
    (M : MathOps) (commits : List RawCommit) (contributors : List RawContributor)
    (complexityMetrics hotspots : List ComplexityItem)
    (languageStats : List (String × ℕ)) (fileTree : Option FileNode)
    (now₁ now₂ : String) :
    (buildInsights M commits contributors complexityMetrics hotspots
        languageStats fileTree now₁).withGeneratedAt "" =
      (buildInsights M commits contributors complexityMetrics hotspots
        languageStats fileTree now₂).withGeneratedAt "" := rfl

/-- Claim C2, counterexample: for the commit-count list `[50, 30, 20]`
(total 100) the code's bus factor is 1, not 2 — 50/100 already reaches the
inclusive ≥ 50% threshold at the first contributor. -/
theorem busFactor_50_30_20_is_one :
    busFactor [50, 30, 20] = 1 ∧ busFactor [50, 30, 20] ≠ 2 := by
  have h : busFactor [50, 30, 20] = 1 := by
    norm_num [busFactor, busFactor.go]
  exact ⟨h, by rw [h]; decide⟩

/-- Claim C2, amended: `_bus_factor` returns the minimum number of leading
contributors whose cumulative share reaches at least half of all commits
(inclusive threshold): for any commit-count list with positive total, the
selected prefix reaches half, no shorter prefix does, and in particular
`[50, 30, 20] ↦ 1` (50 is exactly half) and `[40, 30, 30] ↦ 2`. -/
theorem busFactor_inclusive_threshold (l : List ℤ) (h : 0 < l.sum) :
    0 < busFactor l ∧ busFactor l ≤ l.length ∧
    l.sum ≤ 2 * ((l.take (busFactor l)).sum) ∧
    (∀ k, k < busFactor l → 2 * ((l.take k).sum) < l.sum) ∧
    busFactor [50, 30, 20] = 1 ∧ busFactor [40, 30, 30] = 2 := by
  have hne : ¬(l.sum ≤ 0) := by omega
  have hbf : busFactor l = busFactor.go l.sum l 0 0 := by
    rw [busFactor]
    simp only [if_neg hne]
  have hreach := busFactor_go_reach l.sum h l 0 0 (by omega)
  have hmin := busFactor_go_min l.sum h l 0 0 (by omega)
  have hle := busFactor_go_le l.sum l 0 0
  refine ⟨?_, ?_, ?_, ?_, ?_, ?_⟩
  · rw [hbf]
    by_contra hz
    have h0 : busFactor.go l.sum l 0 0 = 0 := by omega
    rw [h0] at hreach
    simp at hreach
    omega
  · rw [hbf]; simpa using hle
  · rw [hbf]; simpa using hreach
  · intro k hk
    rw [hbf] at hk
    simpa using hmin k (by simpa using hk)
  · norm_num [busFactor, busFactor.go]
  · norm_num [busFactor, busFactor.go]

/-- Claim C2, witness: the amended theorem applied to `[50, 30, 20]`. -/
theorem busFactor_inclusive_threshold_witness :
    0 < busFactor [50, 30, 20] ∧
    busFactor [50, 30, 20] = 1 ∧ busFactor [40, 30, 30] = 2 :=
  ⟨(busFactor_inclusive_threshold [50, 30, 20] (by decide)).1,
   (busFactor_inclusive_threshold [50, 30, 20] (by decide)).2.2.2.2.1,
   (busFactor_inclusive_threshold [50, 30, 20] (by decide)).2.2.2.2.2⟩

/-- Claim C3, counterexample: the weighted combination of the health
scorecard at dimension values (80, 90, 70, 100, 60, 50) is 75.6, not 74.0:
0.18·80 + 0.22·90 + 0.20·70 + 0.12·100 + 0.14·60 + 0.14·50 = 75.6. -/
theorem overallScore_example_is_75_6 :
    overallScore
        { ownershipResilience := 80, deliveryReliability := 90,
          complexityHealth := 70, analysisCoverage := 100,
          engineeringVelocity := 60, architectureBalance := 50 } = 378/5 ∧
    (378/5 : ℚ) ≠ 74 := by
  constructor
  · norm_num [overallScore, pyRound, pyRoundInt]
  · norm_num

/-- Claim C3, amended: `_health_scorecard`'s overall score equals
0.18·ownership + 0.22·reliability + 0.20·complexity_health + 0.12·coverage +
0.14·velocity + 0.14·architecture over its computed dimensions, rounded to 2
decimals (`overallScore`); at dimension values (80, 90, 70, 100, 60, 50)
that combination is 75.6 exactly (the claimed 74.0 is an arithmetic slip). -/
theorem healthScorecard_overall_weighting (M : MathOps)
    (totalCommits busFactorVal highRiskFileCount : ℕ) (signals : SignalsDoc)
    (languageStats : List (String × ℕ)) (complexityScanned totalFiles : ℕ) :
    (healthScorecard M totalCommits busFactorVal highRiskFileCount signals
        languageStats complexityScanned totalFiles).overallScore =
      overallScore (healthScorecard M totalCommits busFactorVal
        highRiskFileCount signals languageStats complexityScanned
        totalFiles).dimensions ∧
    overallScore
        { ownershipResilience := 80, deliveryReliability := 90,
          complexityHealth := 70, analysisCoverage := 100,
          engineeringVelocity := 60, architectureBalance := 50 } = 378/5 := by
  constructor
  · rfl
  · norm_num [overallScore, pyRound, pyRoundInt]

/-- Claim C4: the circuit breaker is a three-state machine: it starts
`CLOSED` with failure count 0; `failure_threshold` consecutive failures from
a fresh breaker open the circuit; while `OPEN` inside the cooldown window
every call is rejected without invoking the wrapped function and the breaker
is unchanged; once the cooldown has elapsed the probe call runs — a
successful probe returns to `CLOSED` with failure count 0, and a failing
probe (on any breaker reachable from `init`) re-opens the circuit with the
cooldown timer restarted to the probe's time. -/
theorem circuitBreaker_three_state_machine :
    (∀ (th : ℕ) (tmo : ℤ),
      (CircuitBreaker.init th tmo).state = .closed ∧
      (CircuitBreaker.init th tmo).failureCount = 0) ∧
    (∀ (th : ℕ) (tmo : ℤ) (times : List ℤ), 0 < th → times.length = th →
      (failRun times (CircuitBreaker.init th tmo)).state = .opened ∧
      (failRun times (CircuitBreaker.init th tmo)).failureCount = th) ∧
    (∀ (b : CircuitBreaker) (now t : ℤ) (f : Bool), b.state = .opened →
      b.lastFailureTime = some t → now - t < b.timeout →
      b.call now f = (.rejected, b)) ∧
    (∀ (b : CircuitBreaker) (now t : ℤ), b.state = .opened →
      b.lastFailureTime = some t → b.timeout ≤ now - t →
      (b.call now true).1 = .succeeded ∧
      (b.call now true).2.state = .closed ∧
      (b.call now true).2.failureCount = 0) ∧
    (∀ (b : CircuitBreaker) (now t : ℤ), b.Reachable → b.state = .opened →
      b.lastFailureTime = some t → b.timeout ≤ now - t →
      (b.call now false).1 = .raised ∧
      (b.call now false).2.state = .opened ∧
      (b.call now false).2.lastFailureTime = some now) := by
  refine ⟨?_, ?_, ?_, ?_, ?_⟩
  · intro th tmo
    exact ⟨rfl, rfl⟩
  · intro th tmo times hth hlen
    rcases List.eq_nil_or_concat times with hnil | ⟨ts, tl, hconcat⟩
    · subst hnil; simp at hlen; omega
    · subst hconcat
      have hlen' : ts.length + 1 = th := by simpa using hlen
      have hrun := failRun_closed ts (CircuitBreaker.init th tmo) rfl
        (by simp [CircuitBreaker.init]; omega) (by simp [CircuitBreaker.init]; omega)
      obtain ⟨h1, h2, h3⟩ := hrun
      have hstate : (failRun ts (CircuitBreaker.init th tmo)).state = .closed := by
        rw [h3]
        rw [if_neg (by simp [CircuitBreaker.init]; omega)]
      have hsplit : failRun (ts.concat tl) (CircuitBreaker.init th tmo) =
          ((failRun ts (CircuitBreaker.init th tmo)).call tl false).2 := by
        simp [failRun, List.concat_eq_append]
      rw [hsplit, call_notOpen_failure tl (by rw [hstate]; simp)]
      constructor
      · simp only [CircuitBreaker.onFailure]
        rw [if_pos ?_]
        rw [h1, h2]
        simp [CircuitBreaker.init]
        omega
      · simp only [CircuitBreaker.onFailure]
        rw [h1]
        simp [CircuitBreaker.init]
        omega
  · intro b now t f h1 h2 h3
    exact call_open_wait f h1 h2 h3
  · intro b now t h1 h2 h3
    rw [call_open_probe_success h1 h2 h3]
    exact ⟨rfl, by simp [CircuitBreaker.onSuccess], by simp [CircuitBreaker.onSuccess]⟩
  · intro b now t hr h1 h2 h3
    obtain ⟨hinv, _⟩ := reachable_opened_invariant b hr h1
    rw [call_open_probe_failure h1 h2 h3]
    refine ⟨rfl, ?_, by simp [CircuitBreaker.onFailure]⟩
    simp only [CircuitBreaker.onFailure]
    rw [if_pos (by omega)]

/-- Claim C4, witness: a threshold-2 breaker opened by two failures at times
0 and 1 rejects at time 30, closes on a successful probe at time 61, and
re-opens on a failing probe at time 61. -/
theorem circuitBreaker_three_state_machine_witness :
    (CircuitBreaker.init 2 60).state = .closed ∧
    (failRun [0, 1] (CircuitBreaker.init 2 60)).state = .opened ∧
    ((failRun [0, 1] (CircuitBreaker.init 2 60)).call 30 true) =
      (.rejected, failRun [0, 1] (CircuitBreaker.init 2 60)) ∧
    ((failRun [0, 1] (CircuitBreaker.init 2 60)).call 61 true).2.state = .closed ∧
    ((failRun [0, 1] (CircuitBreaker.init 2 60)).call 61 false).2.state = .opened := by
  refine ⟨(circuitBreaker_three_state_machine.1 2 60).1,
    (circuitBreaker_three_state_machine.2.1 2 60 [0, 1] (by decide) (by decide)).1,
    ?_, ?_, ?_⟩
  · exact circuitBreaker_three_state_machine.2.2.1 _ 30 1 true
      (by decide) (by decide) (by decide)
  · exact (circuitBreaker_three_state_machine.2.2.2.1 _ 61 1
      (by decide) (by decide) (by decide)).2.1
  · exact (circuitBreaker_three_state_machine.2.2.2.2 _ 61 1
      (.step 1 false (.step 0 false (.init 2 60)))
      (by decide) (by decide) (by decide)).2.1

/-- Claim C5: `_risk_flags` has exact threshold edges — bus factor ≤ 1 with
21 total commits produces the high ownership-concentration flag while 20
commits does not; 21 high-risk files produce the high complexity flag while
20 do not — and every output is a sublist of the five rules in their fixed
order (ownership → complexity → no-tests → no-CI → limited-history). -/
theorem riskFlags_threshold_edges_and_order :
    (∀ (totalCommits busFactorVal highRiskFileCount : ℕ) (signals : SignalsDoc),
      (riskFlags totalCommits busFactorVal highRiskFileCount signals).Sublist
        [{ severity := "high",
           message := "High ownership concentration (bus factor <= 1)." },
         { severity := "high",
           message := "Large number of high-complexity files detected." },
         { severity := "medium", message := "No obvious test structure detected." },
         { severity := "medium", message := "No CI workflow detected." },
         { severity := "low",
           message := "Limited commit history; behavior insights have low confidence." }]) ∧
    riskFlags 21 1 0
        { hasTests := true, hasCi := true, hasDocker := false, hasDocs := false,
          notebookCount := 0, configFileCount := 0 } =
      [{ severity := "high",
         message := "High ownership concentration (bus factor <= 1)." }] ∧
    riskFlags 20 1 0
        { hasTests := true, hasCi := true, hasDocker := false, hasDocs := false,
          notebookCount := 0, configFileCount := 0 } = [] ∧
    riskFlags 50 5 21
        { hasTests := true, hasCi := true, hasDocker := false, hasDocs := false,
          notebookCount := 0, configFileCount := 0 } =
      [{ severity := "high",
         message := "Large number of high-complexity files detected." }] ∧
    riskFlags 50 5 20
        { hasTests := true, hasCi := true, hasDocker := false, hasDocs := false,
          notebookCount := 0, configFileCount := 0 } = [] := by
  refine ⟨?_, by decide, by decide, by decide, by decide⟩
  intro totalCommits busFactorVal highRiskFileCount signals
  exact ((((ite_singleton_sublist _ _).append (ite_singleton_sublist _ _)).append
    (ite_singleton_sublist _ _)).append (ite_singleton_sublist _ _)).append
    (ite_singleton_sublist _ _)

/-- Claim C6: `_calculate_maintainability` computes
MI = 171 − 5.2·ln(volume + 1) − 0.23·complexity − 16.2·ln(loc + 1) with
volume = lloc·ln(lloc + 1), clamped into [0, 100] by `max(0, min(100, mi))`
for every input and every interpretation of `math.log`; the bare `except:`
branch returns exactly 50.0. -/
theorem calculateMaintainability_clamped_and_default :
    (∀ (M : MathOps) (lloc loc : ℕ) (complexity : ℚ),
      calculateMaintainability (some (maintainabilityBody M lloc loc complexity)) =
        max 0 (min 100 (171 - 52/10 * M.log ((lloc : ℚ) * M.log ((lloc : ℚ) + 1) + 1)
          - 23/100 * complexity - 162/10 * M.log ((loc : ℚ) + 1))) ∧
      0 ≤ calculateMaintainability (some (maintainabilityBody M lloc loc complexity)) ∧
      calculateMaintainability (some (maintainabilityBody M lloc loc complexity)) ≤ 100) ∧
    calculateMaintainability none = 50 := by
  refine ⟨?_, rfl⟩
  intro M lloc loc complexity
  refine ⟨rfl, le_max_left 0 _, ?_⟩
  exact max_le (by norm_num) (min_le_left _ _)

/-- Claim C7, counterexample: with a cap of 2 and three recognized `.py`
files, one of which fails analysis, `analyze_directory` returns a single
entry — the errored file is counted toward the cap but dropped from the
results, so the result length is 1, not the cap 2. -/
theorem analyzeDirectory_cap_counterexample :
    ((walkFiles (.node [samplePyFile "a.py" false, samplePyFile "b.py" true,
        samplePyFile "c.py" true] [])).filter
      (fun f => f.ext ∈ SUPPORTED_EXTENSIONS)).length = 3 ∧
    (analyzeDirectory 2 (.node [samplePyFile "a.py" false, samplePyFile "b.py" true,
        samplePyFile "c.py" true] [])).length = 1 ∧
    (1 : ℕ) ≠ 2 := by
  refine ⟨by decide, by decide, by decide⟩

/-- Claim C7, amended: when the walk contains more recognized-extension
files than `MAX_FILES_FOR_COMPLEXITY` and every recognized file analyzes
successfully, the scan stops exactly at the cap and returns a list of length
equal to the cap; in general the result never exceeds the cap (files whose
analysis errors are counted but dropped); and subtrees named `.git`,
`node_modules`, `__pycache__`, `venv`, `env` are pruned from the walk. -/
theorem analyzeDirectory_cap (maxFiles : ℕ) (t : DirTree)
    (hmore : maxFiles <
      ((walkFiles t).filter (fun f => f.ext ∈ SUPPORTED_EXTENSIONS)).length)
    (hok : ∀ f ∈ walkFiles t, f.ext ∈ SUPPORTED_EXTENSIONS → f.analysisOk = true) :
    (analyzeDirectory maxFiles t).length = maxFiles ∧
    (∀ (maxFiles' : ℕ) (t' : DirTree),
      (analyzeDirectory maxFiles' t').length ≤ maxFiles') ∧
    (∀ (name : String) (sub : DirTree) (rest : List (String × DirTree)),
      name ∈ SKIP_DIRS → walkSubdirs ((name, sub) :: rest) = walkSubdirs rest) := by
  refine ⟨?_, ?_, ?_⟩
  · exact scanLoop_length_eq maxFiles (walkFiles t) 0 [] rfl (Nat.zero_le _)
      (by omega) hok
  · intro maxFiles' t'
    exact scanLoop_length_le maxFiles' (walkFiles t') 0 [] (by simp) (Nat.zero_le _)
  · intro name sub rest h
    rw [walkSubdirs, if_pos h]
    simp

/-- Claim C7, witness: the amended theorem at a directory of three healthy
`.py` files with a cap of 2. -/
theorem analyzeDirectory_cap_witness :
    (analyzeDirectory 2 (.node [samplePyFile "a.py" true, samplePyFile "b.py" true,
        samplePyFile "c.py" true] [])).length = 2 ∧
    walkSubdirs [("node_modules", DirTree.node [samplePyFile "d.py" true] [])] =
      walkSubdirs [] := by
  refine ⟨(analyzeDirectory_cap 2 _ (by decide) (by decide)).1, ?_⟩
  exact (analyzeDirectory_cap 2
    (.node [samplePyFile "a.py" true, samplePyFile "b.py" true,
      samplePyFile "c.py" true] []) (by decide) (by decide)).2.2
    "node_modules" (DirTree.node [samplePyFile "d.py" true] []) [] (by decide)

/-- Claim C8: `get_commits` gives every commit at iteration index below
`COMMIT_STATS_LIMIT` its real diff statistics (`commit.stats.total`) and
every commit at index ≥ the limit zeroed statistics, while copying the other
fields verbatim from the underlying commit. -/
theorem getCommits_stats_truncation (repoCommits : List RawGitCommit)
    (maxCount : Option ℕ) (maxDefault statsLimit : ℕ) (i : ℕ) (c : CommitOut)
    (h : (getCommits repoCommits maxCount maxDefault statsLimit)[i]? = some c) :
    ∃ raw, repoCommits[i]? = some raw ∧
      c.sha = raw.sha ∧ c.message = raw.message ∧
      c.authorName = raw.authorName ∧ c.authorEmail = raw.authorEmail ∧
      c.committedAt = raw.committedDate ∧
      (i < statsLimit → c.stats = raw.stats) ∧
      (statsLimit ≤ i →
        c.stats = { files := 0, insertions := 0, deletions := 0 }) := by
  unfold getCommits at h
  obtain ⟨raw, hraw, hc⟩ := mapEnumTake_getElem _ _ _ _ _ h
  subst hc
  refine ⟨raw, hraw, rfl, rfl, rfl, rfl, rfl, ?_, ?_⟩
  · intro hlt; simp [hlt]
  · intro hge; simp [Nat.not_lt.mpr hge]

/-- Claim C8, witness: with a stats limit of 1 over a two-commit history,
the commit at index 1 reports zeroed statistics. -/
theorem getCommits_stats_truncation_witness :
    ∃ raw, sampleRepoCommits[1]? = some raw ∧
      sampleCommitOut1.sha = raw.sha ∧ sampleCommitOut1.message = raw.message ∧
      sampleCommitOut1.authorName = raw.authorName ∧
      sampleCommitOut1.authorEmail = raw.authorEmail ∧
      sampleCommitOut1.committedAt = raw.committedDate ∧
      (1 < 1 → sampleCommitOut1.stats = raw.stats) ∧
      (1 ≤ 1 → sampleCommitOut1.stats =
        { files := 0, insertions := 0, deletions := 0 }) :=
  getCommits_stats_truncation sampleRepoCommits none 2000 1 1 sampleCommitOut1
    (by decide)

/-- Claim C9: with an unreachable Redis server and no existing client
handle, `CacheManager.get` returns the absent value and leaves the manager
unchanged, `set` and `delete` are no-ops on both manager and store, and an
operation wrapped by the `cached` decorator still executes and returns the
underlying function's result — none of them raises (each is a total function
of the model whose Redis errors are absorbed). -/
theorem cache_unreachable_degrades (m : CacheManager) (srv : RedisServer)
    (key value : String) (md5Hex : String → String) (pref argsRepr : String)
    (dumps : String → String) (funcResult : String)
    (hm : m.redisClient = none) (hs : srv.reachable = false) :
    m.get srv key = (none, m) ∧
    m.set srv key value = (m, srv) ∧
    m.delete srv key = (m, srv) ∧
    cachedCall md5Hex pref argsRepr dumps funcResult m srv = (funcResult, m, srv) := by
  have hens : m.ensureConnected srv = (false, m) := by
    simp [CacheManager.ensureConnected, hm, redisConnect, hs]
  have hget : m.get srv key = (none, m) := by
    simp [CacheManager.get, hens]
  have hget2 : m.get srv (generateKey md5Hex pref argsRepr) = (none, m) := by
    simp [CacheManager.get, hens]
  have hset : ∀ v, m.set srv (generateKey md5Hex pref argsRepr) v = (m, srv) := by
    intro v; simp [CacheManager.set, hens]
  refine ⟨hget, by simp [CacheManager.set, hens],
    by simp [CacheManager.delete, hens], ?_⟩
  simp [cachedCall, hget2, hset]

/-- Claim C9, witness: a fresh manager against an unreachable server. -/
theorem cache_unreachable_degrades_witness :
    CacheManager.new.get { reachable := false, store := [] } "k" =
      (none, CacheManager.new) ∧
    CacheManager.new.set { reachable := false, store := [] } "k" "v" =
      (CacheManager.new, { reachable := false, store := [] }) ∧
    CacheManager.new.delete { reachable := false, store := [] } "k" =
      (CacheManager.new, { reachable := false, store := [] }) ∧
    cachedCall id "p" "args" id "result" CacheManager.new
        { reachable := false, store := [] } =
      ("result", CacheManager.new, { reachable := false, store := [] }) :=
  cache_unreachable_degrades CacheManager.new { reachable := false, store := [] }
    "k" "v" id "p" "args" id "result" rfl rfl

set_option maxHeartbeats 2000000 in
/-- Claim C10: `build_insights` is total on fully degenerate input (no
commits, contributors, complexity metrics, hotspots or language stats, and
an absent file tree): it returns a complete document whose summary counters
are all 0, night-commit ratio 0, bus factor 0, dominant language `None`, and
whose collaboration story, weekly digest, weather forecast and anomaly
detective are exactly their explicit empty-state sub-documents — for every
clock reading and every interpretation of the math/format primitives. -/
theorem buildInsights_total_on_empty_input (M : MathOps) (now : String) :
    (buildInsights M [] [] [] [] [] none now).summary =
      { totalCommitsAnalyzed := 0, totalContributors := 0, totalCodeChanges := 0,
        avgChangesPerCommit := 0 } ∧
    (buildInsights M [] [] [] [] [] none now).developmentHabits.nightCommitRatio = 0 ∧
    (buildInsights M [] [] [] [] [] none now).teamDynamics.busFactor50Percent = 0 ∧
    (buildInsights M [] [] [] [] [] none now).languageProfile.dominantLanguage = none ∧
    (buildInsights M [] [] [] [] [] none now).collaborationStory = collabEmpty ∧
    (buildInsights M [] [] [] [] [] none now).weeklyHealthDigest = digestEmpty ∧
    (buildInsights M [] [] [] [] [] none now).engineeringWeatherForecast = forecastEmpty ∧
    (buildInsights M [] [] [] [] [] none now).anomalyDetective = anomalyEmpty := by
  exact ⟨rfl, rfl, rfl, rfl, rfl, rfl, rfl, rfl⟩

end CodeVoyage
